import Mathlib

/-!
Verification development for the Groovia music bot (`bot.py`).

The bot's handlers are embedded shallowly: Python strings become `PyStr`
(lists of characters), Python dict payloads become structures, network
calls become oracle functions passed as parameters, and a raised Python
exception is represented by an explicit error value that the surrounding
`try`/`except` of the handler turns into the observable outcome the user
sees.  Helper functions reimplement, character by character, the exact
Python builtins the source calls (`str.split`, `str.startswith`, `in`,
`int`, `str.strip`, slicing), so that each Lean definition can be read
side by side with the corresponding lines of `bot.py`.
-/

/-- A Python string, modelled as its list of characters. -/
abbrev PyStr := List Char

/-- Conversion from a Lean string literal to the character-list model. -/
def str (s : String) : PyStr := s.data

/-- Model of Python `s.startswith(p)` for character lists. -/
def chPrefix : PyStr → PyStr → Bool
  | [], _ => true
  | _ :: _, [] => false
  | a :: as, b :: bs => a == b && chPrefix as bs

/-- Model of Python `sub in s` (contiguous substring test). -/
def chInfix (sub : PyStr) : PyStr → Bool
  | [] => chPrefix sub []
  | c :: t => chPrefix sub (c :: t) || chInfix sub t

/-- Model of Python `s.split(sep)` for a one-character separator:
splits at every occurrence, keeping empty fields, so the result is
never empty (`"".split(sep) == [""]`). -/
def chSplit (sep : Char) : PyStr → List PyStr
  | [] => [[]]
  | c :: cs =>
    let r := chSplit sep cs
    if c == sep then [] :: r
    else
      match r with
      | [] => [[c]]
      | g :: gs => (c :: g) :: gs

/-- Model of Python `sep.join(groups)` for a one-character separator. -/
def chJoin (sep : Char) : List PyStr → PyStr
  | [] => []
  | [g] => g
  | g :: gs => g ++ sep :: chJoin sep gs

/-- Model of Python `s.split(sep, 1)[1]`: everything after the first
separator (used by the `data.split("_", 1)[1]` call sites; the guards
at those sites guarantee a separator is present). -/
def pySplitTail (data : PyStr) : PyStr :=
  match chSplit '_' data with
  | [] => []
  | [_] => []
  | _ :: rest => chJoin '_' rest

/-- Model of Python `s.split(sep)` with a character predicate, used for
the whitespace split of `text.split()`. -/
def chSplitBy (p : Char → Bool) : PyStr → List PyStr
  | [] => [[]]
  | c :: cs =>
    let r := chSplitBy p cs
    if p c then [] :: r
    else
      match r with
      | [] => [[c]]
      | g :: gs => (c :: g) :: gs

/-- Model of `len(text.split())` in `handle_text_message`: Python's
argumentless `split` breaks on whitespace runs and drops empty fields. -/
def pyWordCount (s : PyStr) : Nat :=
  ((chSplitBy Char.isWhitespace s).filter (fun w => w ≠ [])).length

/-- Model of Python `s.strip()`. -/
def pyStrip (s : PyStr) : PyStr :=
  ((s.dropWhile Char.isWhitespace).reverse.dropWhile Char.isWhitespace).reverse

/- ## Basic lemmas about the string model -/

theorem chPrefix_iff (p q : PyStr) : chPrefix p q = true ↔ p <+: q := by
  induction p generalizing q with
  | nil => simp [chPrefix]
  | cons a as ih =>
    cases q with
    | nil => simp [chPrefix]
    | cons b bs =>
      simp only [chPrefix, Bool.and_eq_true, beq_iff_eq, ih, List.cons_prefix_cons]

theorem chPrefix_self_append (p x : PyStr) : chPrefix p (p ++ x) = true := by
  rw [chPrefix_iff]; exact List.prefix_append p x

theorem chPrefix_append_left (p a b : PyStr) :
    chPrefix (p ++ a) (p ++ b) = chPrefix a b := by
  induction p with
  | nil => rfl
  | cons c cs ih => simp [chPrefix, ih]

theorem append_ne_of_chPrefix_false (p x q : PyStr) (h : chPrefix p q = false) :
    p ++ x ≠ q := by
  intro he
  have : chPrefix p q = true := by
    rw [← he]; exact chPrefix_self_append p x
  rw [h] at this; exact Bool.false_ne_true this

theorem chPrefix_append_false (p t x : PyStr)
    (h1 : chPrefix p t = false) (h2 : chPrefix t p = false) :
    chPrefix p (t ++ x) = false := by
  by_contra hc
  have hp : p <+: t ++ x := (chPrefix_iff _ _).1 (by
    cases hb : chPrefix p (t ++ x) with
    | false => exact absurd hb hc
    | true => rfl)
  have ht : t <+: t ++ x := List.prefix_append t x
  rcases le_total p.length t.length with hle | hle
  · have : p <+: t := List.prefix_of_prefix_length_le hp ht hle
    rw [(chPrefix_iff p t).2 this] at h1; exact Bool.noConfusion h1
  · have : t <+: p := List.prefix_of_prefix_length_le ht hp hle
    rw [(chPrefix_iff t p).2 this] at h2; exact Bool.noConfusion h2

theorem chPrefix_false_of_prefix (p p' q : PyStr) (hpp : p <+: p')
    (h : chPrefix p q = false) : chPrefix p' q = false := by
  by_contra hc
  have hp' : p' <+: q := (chPrefix_iff _ _).1 (by
    cases hb : chPrefix p' q with
    | false => exact absurd hb hc
    | true => rfl)
  rw [(chPrefix_iff p q).2 (hpp.trans hp')] at h
  exact Bool.noConfusion h

theorem chSplit_ne_nil (sep : Char) (s : PyStr) : chSplit sep s ≠ [] := by
  cases s with
  | nil => simp [chSplit]
  | cons c cs =>
    simp only [chSplit]
    by_cases h : c == sep
    · simp [h]
    · simp only [h, Bool.false_eq_true, if_false]
      cases hr : chSplit sep cs with
      | nil => simp
      | cons g gs => simp

theorem chSplit_sepFree (sep : Char) (s : PyStr) (h : sep ∉ s) :
    chSplit sep s = [s] := by
  induction s with
  | nil => rfl
  | cons c cs ih =>
    have hc : ¬ (c == sep) = true := by
      simp only [beq_iff_eq]
      intro he; exact h (he ▸ List.mem_cons_self c cs)
    have hcs : sep ∉ cs := fun hm => h (List.mem_cons_of_mem c hm)
    simp only [chSplit, ih hcs]
    simp [hc]

theorem chSplit_append (sep : Char) (p rest : PyStr) (h : sep ∉ p) :
    chSplit sep (p ++ sep :: rest) = p :: chSplit sep rest := by
  induction p with
  | nil => simp [chSplit]
  | cons c cs ih =>
    have hc : ¬ (c == sep) = true := by
      simp only [beq_iff_eq]
      intro he; exact h (he ▸ List.mem_cons_self c cs)
    have hcs : sep ∉ cs := fun hm => h (List.mem_cons_of_mem c hm)
    simp only [List.cons_append, chSplit, List.append_eq]
    rw [if_neg hc, ih hcs]

theorem chJoin_chSplit (sep : Char) (s : PyStr) :
    chJoin sep (chSplit sep s) = s := by
  induction s with
  | nil => rfl
  | cons c cs ih =>
    simp only [chSplit]
    by_cases h : (c == sep) = true
    · have hsep : c = sep := by simpa using h
      simp only [h, if_true]
      cases hr : chSplit sep cs with
      | nil => exact absurd hr (chSplit_ne_nil sep cs)
      | cons g gs =>
        rw [hr] at ih
        simp only [chJoin, List.nil_append, hsep]
        rw [ih]
    · simp only [h, if_false]
      cases hr : chSplit sep cs with
      | nil => exact absurd hr (chSplit_ne_nil sep cs)
      | cons g gs =>
        rw [hr] at ih
        cases gs with
        | nil => simpa [chJoin] using congrArg (c :: ·) ih
        | cons g2 gs2 =>
          simp only [chJoin, List.cons_append] at ih ⊢
          rw [← ih]

theorem pySplitTail_eq (p rest : PyStr) (h : '_' ∉ p) :
    pySplitTail (p ++ '_' :: rest) = rest := by
  unfold pySplitTail
  rw [chSplit_append '_' p rest h]
  cases hr : chSplit '_' rest with
  | nil => exact absurd hr (chSplit_ne_nil '_' rest)
  | cons g gs =>
    have : chJoin '_' (g :: gs) = rest := by rw [← hr]; exact chJoin_chSplit '_' rest
    simpa using this

/- ## Decimal rendering and parsing (Python `str(n)` / `int(s)`) -/

/-- One decimal digit as a character. -/
def digitChar (d : Nat) : Char := Char.ofNat (48 + d)

/-- Little-endian digits of a positive number, computed with explicit
fuel so that every definition stays structurally recursive. -/
def natDigitsRevFuel : Nat → Nat → List Nat
  | 0, _ => []
  | fuel + 1, n => if n = 0 then [] else n % 10 :: natDigitsRevFuel fuel (n / 10)

/-- Model of Python `str(n)` for a natural number. -/
def natChars (n : Nat) : PyStr :=
  if n = 0 then ['0'] else ((natDigitsRevFuel n n).reverse.map digitChar)

/-- Model of Python `str(i)` for a (possibly negative) integer. -/
def intChars (i : Int) : PyStr :=
  if i < 0 then '-' :: natChars i.natAbs else natChars i.toNat

/-- Numeric value of one character, if it is a decimal digit. -/
def digitVal (c : Char) : Option Nat :=
  if 48 ≤ c.toNat && c.toNat ≤ 57 then some (c.toNat - 48) else none

def parseDigitsGo (acc : Nat) : PyStr → Option Nat
  | [] => some acc
  | c :: cs =>
    match digitVal c with
    | some d => parseDigitsGo (10 * acc + d) cs
    | none => none

/-- Parse a nonempty all-digit string. -/
def parseDigits : PyStr → Option Nat
  | [] => none
  | c :: cs => parseDigitsGo 0 (c :: cs)

/-- Exceptions the handler code can raise; the `except` blocks of
`bot.py` catch all of them uniformly. -/
inductive PyErr
  | indexError
  | valueError
  | nameError
deriving DecidableEq, Repr

/-- Model of Python `int(s)` restricted to optional-sign decimal
literals, which is the shape every call site in `bot.py` feeds it;
any other input raises `ValueError`. -/
def pyIntCh (s : PyStr) : Except PyErr Int :=
  match s with
  | [] => .error .valueError
  | c :: cs =>
    if c = '-' then
      match parseDigits cs with
      | some n => .ok (-(n : Int))
      | none => .error .valueError
    else
      match parseDigits (c :: cs) with
      | some n => .ok (n : Int)
      | none => .error .valueError

/- ## Lemmas: decimal round trip -/

theorem digitVal_digitChar : ∀ d : Nat, d < 10 → digitVal (digitChar d) = some d := by
  decide

theorem digitChar_ne_underscore : ∀ d : Nat, d < 10 → digitChar d ≠ '_' := by
  decide

theorem digitChar_ne_dash : ∀ d : Nat, d < 10 → digitChar d ≠ '-' := by
  decide

theorem natDigitsRevFuel_lt (fuel n d : Nat) (h : d ∈ natDigitsRevFuel fuel n) : d < 10 := by
  induction fuel generalizing n with
  | zero => simp [natDigitsRevFuel] at h
  | succ f ih =>
    by_cases hn : n = 0
    · simp [natDigitsRevFuel, hn] at h
    · simp only [natDigitsRevFuel, hn, if_false, List.mem_cons] at h
      rcases h with h | h
      · omega
      · exact ih _ h

/-- Value of a little-endian digit list. -/
def valRev : List Nat → Nat
  | [] => 0
  | d :: ds => d + 10 * valRev ds

theorem valRev_natDigitsRevFuel (fuel n : Nat) (h : n ≤ fuel) :
    valRev (natDigitsRevFuel fuel n) = n := by
  induction fuel generalizing n with
  | zero => interval_cases n; simp [natDigitsRevFuel, valRev]
  | succ f ih =>
    by_cases hn : n = 0
    · simp [natDigitsRevFuel, hn, valRev]
    · simp only [natDigitsRevFuel, hn, if_false, valRev]
      rw [ih (n / 10) (by omega)]
      omega

theorem parseDigitsGo_map (ds : List Nat) (acc : Nat) (h : ∀ d ∈ ds, d < 10) :
    parseDigitsGo acc (ds.map digitChar) = some (ds.foldl (fun a d => 10 * a + d) acc) := by
  induction ds generalizing acc with
  | nil => rfl
  | cons d t ih =>
    simp only [List.map_cons, parseDigitsGo, List.foldl_cons]
    rw [digitVal_digitChar d (h d (List.mem_cons_self d t))]
    exact ih _ (fun x hx => h x (List.mem_cons_of_mem d hx))

theorem foldl_reverse_valRev (ds : List Nat) (acc : Nat) :
    ds.reverse.foldl (fun a d => 10 * a + d) acc = acc * 10 ^ ds.length + valRev ds := by
  induction ds generalizing acc with
  | nil => simp [valRev]
  | cons d t ih =>
    simp only [List.reverse_cons, List.foldl_append, List.foldl_cons, List.foldl_nil, ih,
      valRev, List.length_cons]
    ring

theorem natDigitsRevFuel_ne_nil (f n : Nat) (hf : n ≤ f) (hn : n ≠ 0) :
    natDigitsRevFuel f n ≠ [] := by
  cases f with
  | zero => omega
  | succ f2 => simp [natDigitsRevFuel, hn]

theorem parseDigits_natChars (n : Nat) : parseDigits (natChars n) = some n := by
  by_cases hn : n = 0
  · subst hn; decide
  · have hds : ∀ d ∈ (natDigitsRevFuel n n).reverse, d < 10 := by
      intro d hd
      exact natDigitsRevFuel_lt n n d (List.mem_reverse.1 hd)
    have hne : natDigitsRevFuel n n ≠ [] := natDigitsRevFuel_ne_nil n n (Nat.le_refl n) hn
    have hgo := parseDigitsGo_map ((natDigitsRevFuel n n).reverse) 0 hds
    have hfold := foldl_reverse_valRev (natDigitsRevFuel n n) 0
    rw [valRev_natDigitsRevFuel n n (Nat.le_refl n)] at hfold
    unfold natChars
    simp only [hn, if_false]
    cases hr : (natDigitsRevFuel n n).reverse with
    | nil => exact absurd (by simpa using hr) hne
    | cons d t =>
      rw [hr] at hgo hfold
      simp only [List.map_cons] at hgo
      show parseDigitsGo 0 (digitChar d :: List.map digitChar t) = some n
      rw [hgo, hfold]
      simp

theorem natChars_head_digit (n : Nat) :
    ∃ d cs, d < 10 ∧ natChars n = digitChar d :: cs := by
  by_cases hn : n = 0
  · exact ⟨0, [], by omega, by subst hn; rfl⟩
  · have hne : natDigitsRevFuel n n ≠ [] := natDigitsRevFuel_ne_nil n n (Nat.le_refl n) hn
    cases hr : (natDigitsRevFuel n n).reverse with
    | nil => exact absurd (by simpa using hr) hne
    | cons d t =>
      refine ⟨d, t.map digitChar, ?_, ?_⟩
      · exact natDigitsRevFuel_lt n n d (List.mem_reverse.1 (hr ▸ List.mem_cons_self d t))
      · unfold natChars
        simp [hn, hr]

theorem pyIntCh_natChars (n : Nat) : pyIntCh (natChars n) = .ok (n : Int) := by
  obtain ⟨d, cs, hd, hcs⟩ := natChars_head_digit n
  have hparse := parseDigits_natChars n
  rw [hcs] at hparse ⊢
  simp only [pyIntCh]
  rw [if_neg (digitChar_ne_dash d hd), hparse]

theorem pyIntCh_intChars (i : Int) : pyIntCh (intChars i) = .ok i := by
  unfold intChars
  by_cases hi : i < 0
  · simp only [hi, if_true]
    have hparse := parseDigits_natChars i.natAbs
    show pyIntCh ('-' :: natChars i.natAbs) = .ok i
    simp only [pyIntCh, if_true]
    rw [hparse]
    have habs : -(i.natAbs : Int) = i := by omega
    show Except.ok (-(i.natAbs : Int)) = Except.ok i
    rw [habs]
  · simp only [hi, if_false]
    rw [pyIntCh_natChars]
    congr 1
    omega

theorem underscore_not_mem_natChars (n : Nat) : '_' ∉ natChars n := by
  by_cases hn : n = 0
  · subst hn; decide
  · unfold natChars
    simp only [hn, if_false]
    intro hm
    rcases List.mem_map.1 hm with ⟨d, hd, he⟩
    exact digitChar_ne_underscore d (natDigitsRevFuel_lt n n d (List.mem_reverse.1 hd)) he

theorem underscore_not_mem_intChars (i : Int) : '_' ∉ intChars i := by
  unfold intChars
  by_cases hi : i < 0
  · simp only [hi, if_true, List.mem_cons]
    rintro (h | h)
    · exact absurd h.symm (by decide)
    · exact underscore_not_mem_natChars _ h
  · simp only [hi, if_false]
    exact underscore_not_mem_natChars _

/- ## Retrieval pipeline (bot.py `download_song`, `download_all_songs`) -/

/-- One entry of a song's `downloadUrl` list: a dict whose `url` key may
be absent (`.get("url")` then yields `None`). -/
structure Variant where
  url : Option PyStr
deriving DecidableEq, Repr

/-- The fields of a catalog song payload that the retrieval pipeline
reads: `downloadUrl` (ordered variant list), `image` (thumbnail list),
plus identity/metadata fields. -/
structure Song where
  id : PyStr
  name : PyStr
  downloadUrl : List Variant
  image : List Variant
  duration : Nat
deriving DecidableEq, Repr

/-- `QUALITY_OPTIONS[quality]["index"]` of bot.py: high 4, medium 3, low 2. -/
def QUALITY_INDEX (quality : String) : Nat :=
  if quality = "high" then 4 else if quality = "medium" then 3 else 2

/-- Variant selection, exactly as written at bot.py lines 1019-1023 and
again at lines 1150-1154:
`if quality_index < len(download_urls): download_url = download_urls[quality_index].get("url")`
`elif download_urls: download_url = download_urls[-1].get("url")`. -/
def pickDownloadUrl (quality_index : Nat) (download_urls : List Variant) : Option PyStr :=
  if h : quality_index < download_urls.length then
    (download_urls.get ⟨quality_index, h⟩).url
  else
    match download_urls.getLast? with
    | some v => v.url
    | none => none

/-- `images[-1].get("url") if images else None` (bot.py lines 1042-1043
and 1166-1167). -/
def thumbnail_url (song : Song) : Option PyStr :=
  match song.image.getLast? with
  | some v => v.url
  | none => none

/-- Result of one plain HTTP GET in the pipeline: 200, a non-200
status, or a raised transport exception. -/
inductive FetchStatus
  | ok
  | notOk
  | raised
deriving DecidableEq, Repr

/-- Per-item outcome of a retrieval-pipeline run (spec `DownloadOutcome`
status), as realised by the control flow of `download_all_songs`. -/
inductive Outcome
  | sent
  | skippedNoUrl
  | fetchFailed
deriving DecidableEq, Repr

/-- Classification of one batch item, bot.py lines 1129-1196.  The whole
item body sits in a per-item `try`; `continue` on a missing URL maps to
`skippedNoUrl`, a non-200 audio response or any raised exception maps to
`fetchFailed`, a completed `send_audio` maps to `sent`.  `detail` is the
`get_song_details` oracle (`None` models both transport failure and a
non-success envelope, as `fetch_api` collapses them), `http` is the
binary GET oracle. -/
def process_song (quality_index : Nat)
    (detail : PyStr → Option Song)
    (http : PyStr → FetchStatus)
    (song0 : Song) : Outcome :=
  let song :=
    if song0.downloadUrl.isEmpty then
      match detail song0.id with
      | some s2 => s2
      | none => song0
    else song0
  match pickDownloadUrl quality_index song.downloadUrl with
  | none => .skippedNoUrl
  | some url =>
    if url = [] then .skippedNoUrl
    else
      match http url with
      | .raised => .fetchFailed
      | .notOk => .fetchFailed
      | .ok =>
        match thumbnail_url song with
        | none => .sent
        | some turl =>
          if turl = [] then .sent
          else
            match http turl with
            | .raised => .fetchFailed
            | .notOk => .sent
            | .ok => .sent

/-- The `for idx, song in enumerate(songs, 1)` loop of
`download_all_songs` (bot.py lines 1129-1196): items are processed
strictly one after another; each iteration first edits the progress
message to `idx/total` and then runs the guarded item body whose
classification is `process_song`.  Returns the per-item outcomes and
the progress edits, in order. -/
def batch_loop (quality_index : Nat)
    (detail : PyStr → Option Song)
    (http : PyStr → FetchStatus)
    (total : Nat) : List Song → Nat → List Outcome × List (Nat × Nat)
  | [], _ => ([], [])
  | song :: rest, idx =>
    let r := process_song quality_index detail http song
    let tail := batch_loop quality_index detail http total rest (idx + 1)
    (r :: tail.1, (idx, total) :: tail.2)

/-- Observable trace of one `download_all_songs` run over an already
fetched child list. -/
structure BatchRun where
  outcomes : List Outcome
  progress : List (Nat × Nat)
  reported_sent : Nat
  total : Nat
deriving DecidableEq, Repr

/-- `download_all_songs` after the child list has been fetched
(bot.py lines 1119-1200).  The final status edit at lines 1198-1200 is
`f"... Successfully sent {total_songs} songs."`, so the number the
summary reports as sent is `total_songs = len(songs)`, recorded here as
`reported_sent`. -/
def download_all_songs (quality_index : Nat)
    (detail : PyStr → Option Song)
    (http : PyStr → FetchStatus)
    (songs : List Song) : BatchRun :=
  let total_songs := songs.length
  let run := batch_loop quality_index detail http total_songs songs 1
  { outcomes := run.1
    progress := run.2
    reported_sent := total_songs
    total := total_songs }

/-- Observable outcome of one `download_song` call (bot.py lines
987-1094), from the user's point of view. -/
inductive DlResult
  | detailsFailed
  | noUrl
  | fetchFailed
  | exceptionCaught
  | sentAudio (withThumb : Bool)
deriving DecidableEq, Repr

/-- Single-item retrieval `download_song(song_id)`: fetch details, pick
a variant URL, GET the audio, then (only under `resp.status == 200`,
lines 1048-1056) GET the thumbnail if one is listed, and finally send
the audio with `thumbnail=thumb_data if thumb_data else None`.  A raised
exception anywhere inside the `try` jumps to the handler at lines
1089-1094 before `send_audio` is reached. -/
def download_song (quality_index : Nat)
    (detail : PyStr → Option Song)
    (http : PyStr → FetchStatus)
    (song_id : PyStr) : DlResult :=
  match detail song_id with
  | none => .detailsFailed
  | some song_data =>
    match pickDownloadUrl quality_index song_data.downloadUrl with
    | none => .noUrl
    | some url =>
      if url = [] then .noUrl
      else
        match http url with
        | .raised => .exceptionCaught
        | .notOk => .fetchFailed
        | .ok =>
          match thumbnail_url song_data with
          | none => .sentAudio false
          | some turl =>
            if turl = [] then .sentAudio false
            else
              match http turl with
              | .raised => .exceptionCaught
              | .notOk => .sentAudio false
              | .ok => .sentAudio true

/- ## Session history ring (bot.py lines 1074-1083, 1246-1249) -/

/-- One entry of `user_data["history"]`. -/
structure HistEntry where
  name : PyStr
  artist : PyStr
  id : PyStr
deriving DecidableEq, Repr

/-- `user_data["history"].append({...})` followed by
`if len(...) > 50: user_data["history"] = user_data["history"][-50:]`
(bot.py lines 1075-1083). -/
def recordDownload (history : List HistEntry) (e : HistEntry) : List HistEntry :=
  let h := history ++ [e]
  if 50 < h.length then h.drop (h.length - 50) else h

/-- `user_data["history"] = []` on the `clear_history` token. -/
def clearHistory (_history : List HistEntry) : List HistEntry := []

/- ## Supporting lemmas about the batch loop -/

theorem batch_loop_outcomes (qi : Nat) (detail : PyStr → Option Song)
    (http : PyStr → FetchStatus) (total : Nat) :
    ∀ (songs : List Song) (idx : Nat),
      (batch_loop qi detail http total songs idx).1
        = songs.map (process_song qi detail http) := by
  intro songs
  induction songs with
  | nil => intro idx; rfl
  | cons s rest ih =>
    intro idx
    simp only [batch_loop, List.map_cons]
    rw [ih (idx + 1)]

theorem batch_loop_progress_length (qi : Nat) (detail : PyStr → Option Song)
    (http : PyStr → FetchStatus) (total : Nat) :
    ∀ (songs : List Song) (idx : Nat),
      (batch_loop qi detail http total songs idx).2.length = songs.length := by
  intro songs
  induction songs with
  | nil => intro idx; rfl
  | cons s rest ih =>
    intro idx
    simp only [batch_loop, List.length_cons]
    rw [ih (idx + 1)]

/- ## Concrete batch scenario: 5 items, the third with no variant list -/

/-- A song with no thumbnail images and the given variant list. -/
def mkSongNoThumb (c : Char) (urls : List Variant) : Song :=
  { id := [c], name := [c], downloadUrl := urls, image := [], duration := 120 }

/-- Five children of an album; the third has no resolvable variant. -/
def exampleSongs : List Song :=
  [ mkSongNoThumb 'a' [Variant.mk (some (str "ua"))]
  , mkSongNoThumb 'b' [Variant.mk (some (str "ub"))]
  , mkSongNoThumb 'c' []
  , mkSongNoThumb 'd' [Variant.mk (some (str "ud"))]
  , mkSongNoThumb 'e' [Variant.mk (some (str "ue"))] ]

/-- A by-id refetch oracle that cannot resolve anything further. -/
def exampleDetail : PyStr → Option Song := fun _ => none

/-- A binary-fetch oracle on which every GET returns HTTP 200. -/
def exampleHttp : PyStr → FetchStatus := fun _ => FetchStatus.ok

/-- Claim C3: for every quality tier and variant list, selection never
indexes out of bounds: an empty list yields no URL (and `download_song`
reports the no-URL outcome without consulting the binary-fetch oracle),
an out-of-range preferred index falls back to the last (index n-1)
variant, and an in-range preferred index selects exactly that variant. -/
theorem c3_variant_selection (quality_index : Nat) (urls : List Variant) :
    (urls = [] → pickDownloadUrl quality_index urls = none)
    ∧ (urls.length ≤ quality_index →
        pickDownloadUrl quality_index urls = Option.bind urls.getLast? Variant.url)
    ∧ (∀ v, urls.get? quality_index = some v →
        pickDownloadUrl quality_index urls = v.url)
    ∧ (urls.getLast? = urls.get? (urls.length - 1))
    ∧ (∀ (detail : PyStr → Option Song) song_id song,
        detail song_id = some song → song.downloadUrl = [] →
        ∀ http, download_song quality_index detail http song_id = DlResult.noUrl) := by
  refine ⟨?_, ?_, ?_, ?_, ?_⟩
  · intro he; subst he; rfl
  · intro hle
    unfold pickDownloadUrl
    rw [dif_neg (by omega)]
    cases h2 : urls.getLast? with
    | none => rfl
    | some v => rfl
  · intro v hv
    rcases List.get?_eq_some.1 hv with ⟨hlt, hget⟩
    unfold pickDownloadUrl
    rw [dif_pos hlt, hget]
  · rw [List.getLast?_eq_getElem?, List.get?_eq_getElem?]
  · intro detail song_id song hdet hurls http
    simp [download_song, hdet, hurls, pickDownloadUrl]

theorem c3_witness :
    pickDownloadUrl 4 ([] : List Variant) = none
    ∧ pickDownloadUrl 4 [Variant.mk (some (str "u1")), Variant.mk (some (str "u2"))]
        = Option.bind (List.getLast? [Variant.mk (some (str "u1")), Variant.mk (some (str "u2"))]) Variant.url
    ∧ pickDownloadUrl 1 [Variant.mk (some (str "u1")), Variant.mk (some (str "u2"))]
        = Variant.url (Variant.mk (some (str "u2"))) :=
  ⟨(c3_variant_selection 4 []).1 rfl,
   (c3_variant_selection 4 _).2.1 (by decide),
   (c3_variant_selection 1 _).2.2.1 (Variant.mk (some (str "u2"))) (by decide)⟩

/-- Claim C4: batch retrieval processes items strictly sequentially and
each item's outcome depends only on that item — a failure (no URL,
non-200, raised exception) is recorded as that item's outcome and the
loop continues, so the run always yields one outcome per item; on the
5-item example list whose third item has no resolvable variant the
outcomes are sent, sent, skippedNoUrl, sent, sent. -/
theorem c4_batch_isolation :
    (∀ (qi : Nat) (detail : PyStr → Option Song) (http : PyStr → FetchStatus)
        (songs : List Song),
      (download_all_songs qi detail http songs).outcomes.length = songs.length
      ∧ ∀ (i : Nat) (h : i < songs.length),
          (download_all_songs qi detail http songs).outcomes.get? i
            = some (process_song qi detail http (songs.get ⟨i, h⟩)))
    ∧ (download_all_songs 3 exampleDetail exampleHttp exampleSongs).outcomes
        = [Outcome.sent, Outcome.sent, Outcome.skippedNoUrl, Outcome.sent, Outcome.sent] := by
  constructor
  · intro qi detail http songs
    have hmap : (download_all_songs qi detail http songs).outcomes
        = songs.map (process_song qi detail http) := by
      unfold download_all_songs
      exact batch_loop_outcomes qi detail http songs.length songs 1
    constructor
    · rw [hmap, List.length_map]
    · intro i h
      rw [hmap, List.get?_map, List.get?_eq_get h]
      rfl
  · decide

theorem c4_witness :
    (download_all_songs 3 exampleDetail exampleHttp exampleSongs).outcomes.get? 2
      = some (process_song 3 exampleDetail exampleHttp (exampleSongs.get ⟨2, by decide⟩)) :=
  (c4_batch_isolation.1 3 exampleDetail exampleHttp exampleSongs).2 2 (by decide)

/-- Claim C1, counterexample: on the 5-item list whose third item has no
resolvable variant, only 4 items are sent but the final summary reports
5 (the total) as the sent count, not 4 as the claim states. -/
theorem c1_counterexample :
    (download_all_songs 3 exampleDetail exampleHttp exampleSongs).outcomes.count Outcome.sent = 4
    ∧ (download_all_songs 3 exampleDetail exampleHttp exampleSongs).total = 5
    ∧ (download_all_songs 3 exampleDetail exampleHttp exampleSongs).reported_sent = 5
    ∧ (download_all_songs 3 exampleDetail exampleHttp exampleSongs).reported_sent ≠ 4 := by
  decide

/-- Claim C1 (amended): every batch run edits the progress message once
per item and ends with a final summary, but that summary always reports
the total item count as the sent count, regardless of how many items
were actually sent; in particular on the 5-item example with one
unresolvable item it reports 5 sent of 5 while only 4 were sent. -/
theorem c1_amended_summary :
    (∀ (qi : Nat) (detail : PyStr → Option Song) (http : PyStr → FetchStatus)
        (songs : List Song),
      (download_all_songs qi detail http songs).progress.length = songs.length
      ∧ (download_all_songs qi detail http songs).reported_sent = songs.length
      ∧ (download_all_songs qi detail http songs).total = songs.length)
    ∧ ((download_all_songs 3 exampleDetail exampleHttp exampleSongs).reported_sent = 5
        ∧ (download_all_songs 3 exampleDetail exampleHttp exampleSongs).outcomes.count Outcome.sent = 4) := by
  constructor
  · intro qi detail http songs
    refine ⟨?_, rfl, rfl⟩
    unfold download_all_songs
    exact batch_loop_progress_length qi detail http songs.length songs 1
  · exact ⟨rfl, by decide⟩

/- ## Claim C5: history ring -/

/-- Pairwise-distinct history entries used for the 51-download run. -/
def mkEntry (i : Nat) : HistEntry :=
  { name := [Char.ofNat (65 + i)], artist := str "artist", id := [Char.ofNat (65 + i)] }

set_option maxRecDepth 40000 in
/-- Claim C5: the history ring never exceeds 50 entries after any
operation, and eviction is FIFO: after 51 sequential recorded
downloads the first entry is gone and the 51st is present. -/
theorem c5_history_ring :
    (∀ (history : List HistEntry) (e : HistEntry), (recordDownload history e).length ≤ 50)
    ∧ (∀ history : List HistEntry, (clearHistory history).length ≤ 50)
    ∧ (let final := (List.range 51).foldl (fun h i => recordDownload h (mkEntry i)) [];
       mkEntry 0 ∉ final ∧ mkEntry 50 ∈ final ∧ final.length = 50) := by
  refine ⟨?_, ?_, ?_⟩
  · intro history e
    unfold recordDownload
    by_cases h50 : 50 < (history ++ [e]).length
    · rw [if_pos h50, List.length_drop]
      omega
    · rw [if_neg h50]
      omega
  · intro history
    simp [clearHistory]
  · decide

/- ## Free-text routing (bot.py `handle_text_message`, `handle_url`,
`extract_jiosaavn_id`) -/

/-- The part of a string before the first occurrence of a character
(the whole string if the character is absent). -/
def dropFromChar (sep : Char) (s : PyStr) : PyStr :=
  (chSplit sep s).headD []

/-- After an `http://` or `https://` scheme, Python `urlparse` consumes
the authority up to the next `/`; the path is what remains. -/
def stripAuthority (rest : PyStr) : PyStr :=
  match chSplit '/' rest with
  | [] => []
  | [_] => []
  | _ :: ps => '/' :: chJoin '/' ps

/-- Model of `urllib.parse.urlparse(url).path` for the URL shapes the
bot receives: an optional `http`/`https` scheme plus authority is
stripped, query and fragment are dropped, and a scheme-less input is
all path (which is how `urlparse` treats plain text). -/
def urlparse_path (url : PyStr) : PyStr :=
  let noFrag := dropFromChar '#' url
  let noQuery := dropFromChar '?' noFrag
  if chPrefix (str "http://") noQuery then stripAuthority (noQuery.drop 7)
  else if chPrefix (str "https://") noQuery then stripAuthority (noQuery.drop 8)
  else noQuery

/-- `extract_jiosaavn_id` (bot.py lines 102-122): look for the marker
segments in the parsed path, in source order, and return the last path
segment together with the kind. -/
def extract_jiosaavn_id (url : PyStr) : Option PyStr × Option PyStr :=
  let path := urlparse_path url
  let lastSeg := (chSplit '/' path).getLastD []
  if chInfix (str "/song/") path then (some lastSeg, some (str "song"))
  else if chInfix (str "/album/") path then (some lastSeg, some (str "album"))
  else if chInfix (str "/featured/") path || chInfix (str "/playlist/") path then
    (some lastSeg, some (str "playlist"))
  else if chInfix (str "/artist/") path then (some lastSeg, some (str "artist"))
  else (none, none)

/-- The gate at bot.py line 641:
`if "jiosaavn.com" in text or "saavn.com" in text`. -/
def mentionsSaavn (text : PyStr) : Bool :=
  chInfix (str "jiosaavn.com") text || chInfix (str "saavn.com") text

/-- Where one free-text turn is routed. -/
inductive TextRoute
  | urlDetail (id kind : PyStr)
  | urlInvalid
  | lyricsNotSupported
  | songSearch (query : PyStr) (page : Nat)
deriving DecidableEq, Repr

/-- `handle_text_message` routing (bot.py lines 635-655) combined with
the id/kind validation at the top of `handle_url` (lines 659-666):
domain-bearing text goes to URL handling — a resolved nonempty id+kind
reaches the corresponding detail view or artist menu, anything else gets
the invalid-URL error; non-domain text with more than 6 words gets the
lyrics-not-supported error; all other text becomes a page-0 song
search. -/
def handle_text_message (raw : PyStr) : TextRoute :=
  if mentionsSaavn (pyStrip raw) then
    match extract_jiosaavn_id (pyStrip raw) with
    | (some item_id, some item_type) =>
      if item_id = [] then TextRoute.urlInvalid
      else TextRoute.urlDetail item_id item_type
    | (some _, none) => TextRoute.urlInvalid
    | (none, _) => TextRoute.urlInvalid
  else if 6 < pyWordCount (pyStrip raw) then TextRoute.lyricsNotSupported
  else TextRoute.songSearch (pyStrip raw) 0

/-- Claim C6, counterexample: the text `jiosaavn.com` does not match any
catalog URL pattern (`extract_jiosaavn_id` resolves nothing) and has
word count 1 ≤ 6, so by the claim it would be treated as a song-name
query; the code instead routes every domain-bearing text to URL handling
and answers with the invalid-URL error, performing no search. -/
theorem c6_counterexample :
    extract_jiosaavn_id (str "jiosaavn.com") = (none, none)
    ∧ pyWordCount (pyStrip (str "jiosaavn.com")) = 1
    ∧ handle_text_message (str "jiosaavn.com") = TextRoute.urlInvalid
    ∧ handle_text_message (str "jiosaavn.com") ≠ TextRoute.songSearch (str "jiosaavn.com") 0 := by
  decide

/-- Claim C6 (amended): free-text routing first checks for the catalog
domain: domain-bearing text is always routed to URL handling, reaching
the detail view or artist menu when a nonempty id and kind resolve and
the invalid-URL error otherwise (it never falls through to search);
text without the domain gets the not-supported error when its word
count exceeds 6 and otherwise becomes a song-name query at page 0. -/
theorem c6_amended_text_routing (raw : PyStr) :
    (mentionsSaavn (pyStrip raw) = false → 6 < pyWordCount (pyStrip raw) →
      handle_text_message raw = TextRoute.lyricsNotSupported)
    ∧ (mentionsSaavn (pyStrip raw) = false → pyWordCount (pyStrip raw) ≤ 6 →
      handle_text_message raw = TextRoute.songSearch (pyStrip raw) 0)
    ∧ (∀ item_id item_type, mentionsSaavn (pyStrip raw) = true →
      extract_jiosaavn_id (pyStrip raw) = (some item_id, some item_type) →
      item_id ≠ [] →
      handle_text_message raw = TextRoute.urlDetail item_id item_type)
    ∧ (∀ item_id item_type, mentionsSaavn (pyStrip raw) = true →
      extract_jiosaavn_id (pyStrip raw) = (some item_id, some item_type) →
      item_id = [] →
      handle_text_message raw = TextRoute.urlInvalid)
    ∧ (mentionsSaavn (pyStrip raw) = true →
      (extract_jiosaavn_id (pyStrip raw)).1 = none →
      handle_text_message raw = TextRoute.urlInvalid) := by
  refine ⟨?_, ?_, ?_, ?_, ?_⟩
  · intro h1 h2
    unfold handle_text_message
    rw [if_neg (by simp [h1]), if_pos h2]
  · intro h1 h2
    unfold handle_text_message
    rw [if_neg (by simp [h1]), if_neg (by omega)]
  · intro item_id item_type h1 h2 h3
    unfold handle_text_message
    rw [if_pos h1, h2]
    simp [h3]
  · intro item_id item_type h1 h2 h3
    unfold handle_text_message
    rw [if_pos h1, h2]
    simp [h3]
  · intro h1 h5
    rcases hx : extract_jiosaavn_id (pyStrip raw) with ⟨o1, o2⟩
    rw [hx] at h5
    simp only at h5
    subst h5
    unfold handle_text_message
    rw [if_pos h1, hx]

theorem c6_witness :
    handle_text_message (str "hello world") = TextRoute.songSearch (pyStrip (str "hello world")) 0 :=
  (c6_amended_text_routing (str "hello world")).2.1 (by decide) (by decide)

/- ## Admin tokens (bot.py `admin_panel`, callback branches at lines
1397-1411, `confirm_broadcast`) -/

/-- One entry of the global `user_stats` dict. -/
structure UserStat where
  downloads : Nat
  searches : Nat
deriving DecidableEq, Repr

/-- The per-session `context.user_data` fields the admin flow touches. -/
structure SessionCtx where
  admin_mode : Option PyStr
  broadcast_message : Option PyStr
deriving DecidableEq, Repr

/-- What the session sees in response to an admin-flavoured token. -/
inductive AdminResponse
  | unauthorizedAlert
  | panelView (users downloads searches : Nat)
  | statsView (users downloads searches : Nat)
  | broadcastPromptAlert
  | silent
deriving DecidableEq, Repr

def sumDownloads (user_stats : List (Nat × UserStat)) : Nat :=
  (user_stats.map (fun p => p.2.downloads)).sum

def sumSearches (user_stats : List (Nat × UserStat)) : Nat :=
  (user_stats.map (fun p => p.2.searches)).sum

/-- Dispatch of the four admin-flavoured callback tokens.
`admin_panel` (lines 1398-1399 into `admin_panel`, lines 601-632) and
`admin_stats` (lines 1407-1411) first check `user_id not in ADMIN_IDS`
and answer the Unauthorized alert.  `admin_broadcast` (lines 1402-1404)
performs no membership check: it answers the broadcast prompt and sets
`context.user_data["admin_mode"] = "broadcast"`.  `broadcast_confirm`
matches no branch of `callback_query_handler` at all (`confirm_broadcast`
is never registered as a handler), so the token is silently consumed by
the unconditional `query.answer()` at line 1210. -/
def admin_action (ADMIN_IDS : List Nat) (user_id : Nat)
    (user_stats : List (Nat × UserStat)) (ctx : SessionCtx) (data : PyStr) :
    List (Nat × UserStat) × SessionCtx × AdminResponse :=
  if data = str "admin_panel" then
    if user_id ∈ ADMIN_IDS then
      (user_stats, ctx,
        AdminResponse.panelView user_stats.length (sumDownloads user_stats) (sumSearches user_stats))
    else (user_stats, ctx, AdminResponse.unauthorizedAlert)
  else if data = str "admin_broadcast" then
    (user_stats, { ctx with admin_mode := some (str "broadcast") },
      AdminResponse.broadcastPromptAlert)
  else if data = str "admin_stats" then
    if user_id ∈ ADMIN_IDS then
      (user_stats, ctx,
        AdminResponse.statsView user_stats.length (sumDownloads user_stats) (sumSearches user_stats))
    else (user_stats, ctx, AdminResponse.unauthorizedAlert)
  else (user_stats, ctx, AdminResponse.silent)

/-- Claim C2, counterexample: session 2 is not in the allow-list `[1]`,
yet the `admin_broadcast` token is answered with the broadcast prompt
(no Unauthorized rejection) and flips the session's broadcast-awaiting
mode flag, so per-session state is not left unchanged. -/
theorem c2_counterexample :
    (admin_action [1] 2 [(2, UserStat.mk 0 0)] (SessionCtx.mk none none)
        (str "admin_broadcast")).2.2 ≠ AdminResponse.unauthorizedAlert
    ∧ (admin_action [1] 2 [(2, UserStat.mk 0 0)] (SessionCtx.mk none none)
        (str "admin_broadcast")).2.1 ≠ SessionCtx.mk none none
    ∧ (admin_action [1] 2 [(2, UserStat.mk 0 0)] (SessionCtx.mk none none)
        (str "admin_broadcast")).2.1.admin_mode = some (str "broadcast") := by
  decide

/-- Claim C2 (amended): for a session not in the allow-list, the
`admin_panel` and `admin_stats` tokens produce the Unauthorized alert
and leave the usage counters and session state unchanged, and the
`broadcast_confirm` token is silently ignored with state unchanged (its
gated handler is never wired up); the `admin_broadcast` token, however,
is not gated: it answers with the broadcast prompt and sets the
session's broadcast-awaiting mode flag even for non-privileged
sessions. -/
theorem c2_amended_admin_gating (ADMIN_IDS : List Nat) (user_id : Nat)
    (user_stats : List (Nat × UserStat)) (ctx : SessionCtx)
    (hnot : user_id ∉ ADMIN_IDS) :
    admin_action ADMIN_IDS user_id user_stats ctx (str "admin_panel")
      = (user_stats, ctx, AdminResponse.unauthorizedAlert)
    ∧ admin_action ADMIN_IDS user_id user_stats ctx (str "admin_stats")
      = (user_stats, ctx, AdminResponse.unauthorizedAlert)
    ∧ admin_action ADMIN_IDS user_id user_stats ctx (str "broadcast_confirm")
      = (user_stats, ctx, AdminResponse.silent)
    ∧ admin_action ADMIN_IDS user_id user_stats ctx (str "admin_broadcast")
      = (user_stats, { ctx with admin_mode := some (str "broadcast") },
          AdminResponse.broadcastPromptAlert) := by
  refine ⟨?_, ?_, ?_, ?_⟩
  · unfold admin_action
    rw [if_pos rfl, if_neg hnot]
  · unfold admin_action
    rw [if_neg (by decide), if_neg (by decide), if_pos rfl, if_neg hnot]
  · unfold admin_action
    rw [if_neg (by decide), if_neg (by decide), if_neg (by decide)]
  · unfold admin_action
    rw [if_neg (by decide), if_pos rfl]

theorem c2_witness :
    admin_action [1] 2 [(2, UserStat.mk 3 4)] (SessionCtx.mk none none) (str "admin_panel")
      = ([(2, UserStat.mk 3 4)], SessionCtx.mk none none, AdminResponse.unauthorizedAlert) :=
  (c2_amended_admin_gating [1] 2 [(2, UserStat.mk 3 4)] (SessionCtx.mk none none)
    (by decide)).1

/- ## Claim C10: the `artist_albums_` branch (bot.py lines 1333-1345) -/

/-- The envelope a catalog fetch returns, as the handler checks it
(`if albums_data and albums_data.get("success")`). -/
structure Envelope where
  success : Bool
  albums : List PyStr
  total : Nat
deriving DecidableEq, Repr

/-- Reading a Python local that may be unbound in the current function
invocation: `none` raises `NameError` (`UnboundLocalError`). -/
def readLocal {α : Type} (v : Option α) : Except PyErr α :=
  match v with
  | some x => Except.ok x
  | none => Except.error PyErr.nameError

/-- The list view the branch would render. -/
structure ListViewDesc where
  kind : PyStr
  page : Int
  total : Nat
  items : List PyStr
  query : PyStr
deriving DecidableEq, Repr

/-- Body of the `artist_albums_` branch (bot.py lines 1333-1345):
`results = albums_data["data"]["albums"]` but
`total = songs_data.get("data", {}).get("total", 0)` reads the local
`songs_data`, which is assigned only in the mutually exclusive
`artist_songs_` branch. -/
def artist_albums_branch (albums_data : Option Envelope)
    (songs_data : Option Envelope) (artist_id : PyStr) (page : Int) :
    Except PyErr (Option ListViewDesc) :=
  match albums_data with
  | none => Except.ok none
  | some env =>
    if env.success then
      match readLocal songs_data with
      | Except.error e => Except.error e
      | Except.ok sd =>
        Except.ok (some (ListViewDesc.mk (str "album") page sd.total env.albums artist_id))
    else Except.ok none

/-- What the user observes for the whole callback turn. -/
inductive CallbackOutcome
  | rendered (v : ListViewDesc)
  | silent
  | errorAlert
deriving DecidableEq, Repr

/-- Dispatch of an `artist_albums_` token: fetch the artist's albums,
run the branch body with `songs_data` unbound (no other branch of this
invocation assigns it), and let the handler's catch-all `except`
(bot.py lines 1458-1460) turn a raised error into the generic alert. -/
def handle_artist_albums (fetchAlbums : PyStr → Int → Option Envelope)
    (artist_id : PyStr) (page : Int) : CallbackOutcome :=
  match artist_albums_branch (fetchAlbums artist_id page) none artist_id page with
  | Except.error _ => CallbackOutcome.errorAlert
  | Except.ok none => CallbackOutcome.silent
  | Except.ok (some v) => CallbackOutcome.rendered v

/-- Claim C10: whenever the artist-albums fetch returns a successful
payload the branch reads the never-assigned local `songs_data` and
raises `NameError`, so the user only ever gets the generic error alert
and the artist-albums list view is never rendered. -/
theorem c10_artist_albums_nameerror
    (fetchAlbums : PyStr → Int → Option Envelope) (artist_id : PyStr) (page : Int) :
    (∀ env, fetchAlbums artist_id page = some env → env.success = true →
      artist_albums_branch (fetchAlbums artist_id page) none artist_id page
        = Except.error PyErr.nameError
      ∧ handle_artist_albums fetchAlbums artist_id page = CallbackOutcome.errorAlert)
    ∧ (∀ v, handle_artist_albums fetchAlbums artist_id page ≠ CallbackOutcome.rendered v) := by
  constructor
  · intro env hfetch hsucc
    have hbranch : artist_albums_branch (fetchAlbums artist_id page) none artist_id page
        = Except.error PyErr.nameError := by
      simp only [artist_albums_branch, hfetch, hsucc, if_true, readLocal]
    refine ⟨hbranch, ?_⟩
    unfold handle_artist_albums
    rw [hbranch]
  · intro v
    unfold handle_artist_albums
    cases hfetch : fetchAlbums artist_id page with
    | none => simp [artist_albums_branch]
    | some env =>
      by_cases hsucc : env.success = true
      · simp [artist_albums_branch, hsucc, readLocal]
      · simp [artist_albums_branch, hsucc]

theorem c10_witness :
    handle_artist_albums (fun _ _ => some (Envelope.mk true [str "alb1"] 7))
      (str "ar1") 0 = CallbackOutcome.errorAlert :=
  ((c10_artist_albums_nameerror (fun _ _ => some (Envelope.mk true [str "alb1"] 7))
    (str "ar1") 0).1 (Envelope.mk true [str "alb1"] 7) rfl rfl).2

/- ## Token codec (keyboard builders + the dispatch chain of
`callback_query_handler`, bot.py lines 1207-1460) -/

/-- The closed set of actions the inline keyboards emit as
`callback_data`. -/
inductive BotAction
  | mainMenu
  | helpMenu
  | settingsMenu
  | myStats
  | historyMenu
  | clearHistoryA
  | searchMenu (kind : PyStr)
  | setQuality (choice : PyStr)
  | openSong (id : PyStr)
  | openAlbum (id : PyStr)
  | openPlaylist (id : PyStr)
  | openArtist (id : PyStr)
  | artistSongs (id : PyStr) (page : Int)
  | artistAlbums (id : PyStr) (page : Int)
  | downloadOne (id : PyStr)
  | downloadAll (itemType : PyStr) (id : PyStr)
  | similar (id : PyStr)
  | paginateList (itemType : PyStr) (page : Int) (query : PyStr)
  | paginateDetail (itemType : PyStr) (id : PyStr) (page : Int)
  | adminPanel
  | adminBroadcast
  | adminStats
  | backSearch
  | noop
deriving DecidableEq, Repr

/-- Token construction, exactly as the keyboard builders concatenate it
(`create_song_keyboard`, `create_list_keyboard`,
`create_album_playlist_keyboard`, `create_artist_keyboard`, the static
menu keyboards, and the admin keyboards). -/
def encode : BotAction → PyStr
  | BotAction.mainMenu => str "main_menu"
  | BotAction.helpMenu => str "help"
  | BotAction.settingsMenu => str "settings"
  | BotAction.myStats => str "my_stats"
  | BotAction.historyMenu => str "history"
  | BotAction.clearHistoryA => str "clear_history"
  | BotAction.searchMenu kind => str "search_" ++ kind
  | BotAction.setQuality choice => str "quality_" ++ choice
  | BotAction.openSong id => str "song_" ++ id
  | BotAction.openAlbum id => str "album_" ++ id
  | BotAction.openPlaylist id => str "playlist_" ++ id
  | BotAction.openArtist id => str "artist_" ++ id
  | BotAction.artistSongs id page => str "artist_songs_" ++ (id ++ '_' :: intChars page)
  | BotAction.artistAlbums id page => str "artist_albums_" ++ (id ++ '_' :: intChars page)
  | BotAction.downloadOne id => str "dl_" ++ id
  | BotAction.downloadAll t id => str "dlall_" ++ (t ++ '_' :: id)
  | BotAction.similar id => str "sim_" ++ id
  | BotAction.paginateList t page query => str "list_" ++ (t ++ '_' :: (intChars page ++ '_' :: query))
  | BotAction.paginateDetail t id page => t ++ (str "detail_" ++ (id ++ '_' :: intChars page))
  | BotAction.adminPanel => str "admin_panel"
  | BotAction.adminBroadcast => str "admin_broadcast"
  | BotAction.adminStats => str "admin_stats"
  | BotAction.backSearch => str "back_search"
  | BotAction.noop => str "noop"

/-- Token parsing: the `if`/`elif` dispatch chain of
`callback_query_handler` in source order, restricted to the field
extraction each branch performs before acting.  `Except.error` models a
raised exception (`IndexError` from a missing `parts[i]`, `ValueError`
from `int()`), which the surrounding `try` turns into the generic error
alert; `Except.ok none` models a token that matches no branch and falls
through silently. -/
def decode (data : PyStr) : Except PyErr (Option BotAction) :=
  if data = str "main_menu" then Except.ok (some BotAction.mainMenu)
  else if data = str "help" then Except.ok (some BotAction.helpMenu)
  else if data = str "settings" then Except.ok (some BotAction.settingsMenu)
  else if chPrefix (str "quality_") data then
    Except.ok (some (BotAction.setQuality ((chSplit '_' data).getD 1 [])))
  else if data = str "my_stats" then Except.ok (some BotAction.myStats)
  else if data = str "history" then Except.ok (some BotAction.historyMenu)
  else if data = str "clear_history" then Except.ok (some BotAction.clearHistoryA)
  else if data = str "search_songs" then Except.ok (some (BotAction.searchMenu (str "songs")))
  else if data = str "search_albums" then Except.ok (some (BotAction.searchMenu (str "albums")))
  else if data = str "search_playlists" then Except.ok (some (BotAction.searchMenu (str "playlists")))
  else if data = str "search_artists" then Except.ok (some (BotAction.searchMenu (str "artists")))
  else if chPrefix (str "song_") data then Except.ok (some (BotAction.openSong (pySplitTail data)))
  else if chPrefix (str "album_") data then Except.ok (some (BotAction.openAlbum (pySplitTail data)))
  else if chPrefix (str "playlist_") data then Except.ok (some (BotAction.openPlaylist (pySplitTail data)))
  else if chPrefix (str "artist_") data && !chPrefix (str "artist_songs") data
      && !chPrefix (str "artist_albums") data then
    Except.ok (some (BotAction.openArtist (pySplitTail data)))
  else if chPrefix (str "artist_songs_") data then
    if 3 < (chSplit '_' data).length then
      match pyIntCh ((chSplit '_' data).getD 3 []) with
      | Except.ok p => Except.ok (some (BotAction.artistSongs ((chSplit '_' data).getD 2 []) p))
      | Except.error e => Except.error e
    else Except.ok (some (BotAction.artistSongs ((chSplit '_' data).getD 2 []) 0))
  else if chPrefix (str "artist_albums_") data then
    if 3 < (chSplit '_' data).length then
      match pyIntCh ((chSplit '_' data).getD 3 []) with
      | Except.ok p => Except.ok (some (BotAction.artistAlbums ((chSplit '_' data).getD 2 []) p))
      | Except.error e => Except.error e
    else Except.ok (some (BotAction.artistAlbums ((chSplit '_' data).getD 2 []) 0))
  else if chPrefix (str "dl_") data then Except.ok (some (BotAction.downloadOne (pySplitTail data)))
  else if chPrefix (str "dlall_") data then
    match (chSplit '_' data).get? 2 with
    | none => Except.error PyErr.indexError
    | some item_id =>
      Except.ok (some (BotAction.downloadAll ((chSplit '_' data).getD 1 []) item_id))
  else if chPrefix (str "sim_") data then Except.ok (some (BotAction.similar (pySplitTail data)))
  else if chPrefix (str "list_") data then
    match (chSplit '_' data).get? 2 with
    | none => Except.error PyErr.indexError
    | some pageStr =>
      match pyIntCh pageStr with
      | Except.error e => Except.error e
      | Except.ok p =>
        Except.ok (some (BotAction.paginateList ((chSplit '_' data).getD 1 []) p
          (chJoin '_' ((chSplit '_' data).drop 3))))
  else if chPrefix (str "albumdetail_") data || chPrefix (str "playlistdetail_") data then
    if 2 < (chSplit '_' data).length then
      match pyIntCh ((chSplit '_' data).getD 2 []) with
      | Except.ok p =>
        Except.ok (some (BotAction.paginateDetail
          (if chPrefix (str "albumdetail") data then str "album" else str "playlist")
          ((chSplit '_' data).getD 1 []) p))
      | Except.error e => Except.error e
    else
      Except.ok (some (BotAction.paginateDetail
        (if chPrefix (str "albumdetail") data then str "album" else str "playlist")
        ((chSplit '_' data).getD 1 []) 0))
  else if data = str "admin_panel" then Except.ok (some BotAction.adminPanel)
  else if data = str "admin_broadcast" then Except.ok (some BotAction.adminBroadcast)
  else if data = str "admin_stats" then Except.ok (some BotAction.adminStats)
  else if data = str "back_search" then Except.ok (some BotAction.backSearch)
  else if data = str "noop" then Except.ok (some BotAction.noop)
  else Except.ok none

deriving instance DecidableEq for Except

/-- Observable parse-level outcome of one callback turn: a raised parse
exception becomes the generic error alert of the catch-all `except`
(bot.py lines 1458-1460); a token matching no branch is consumed by the
unconditional `query.answer()` alone. -/
inductive ParseOutcome
  | errorAlert
  | silentAck
  | act (a : BotAction)
deriving DecidableEq, Repr

def handle_token (data : PyStr) : ParseOutcome :=
  match decode data with
  | Except.error _ => ParseOutcome.errorAlert
  | Except.ok none => ParseOutcome.silentAck
  | Except.ok (some a) => ParseOutcome.act a


/- ## Round-trip lemmas, one per token shape -/

theorem notPrefixOfAppend (p t x : PyStr) (h1 : chPrefix p t = false)
    (h2 : chPrefix t p = false) : ¬ (chPrefix p (t ++ x) = true) := by
  rw [chPrefix_append_false p t x h1 h2]
  exact Bool.noConfusion

theorem neAppend (p x q : PyStr) (h : chPrefix p q = false) : ¬ (p ++ x = q) :=
  append_ne_of_chPrefix_false p x q h
theorem decode_setQuality (choice : PyStr) (h : '_' ∉ choice) :
    decode (str "quality_" ++ choice) = Except.ok (some (BotAction.setQuality choice)) := by
  unfold decode
  rw [if_neg (neAppend (str "quality_") (choice) (str "main_menu") (by decide)),
      if_neg (neAppend (str "quality_") (choice) (str "help") (by decide)),
      if_neg (neAppend (str "quality_") (choice) (str "settings") (by decide)),
      if_pos (chPrefix_self_append (str "quality_") choice)]
  rw [show str "quality_" ++ choice = str "quality" ++ '_' :: choice from rfl,
      chSplit_append '_' (str "quality") choice (by decide),
      chSplit_sepFree '_' choice h]
  rfl


theorem decode_openSong (id : PyStr) :
    decode (str "song_" ++ id) = Except.ok (some (BotAction.openSong id)) := by
  unfold decode
  rw [if_neg (neAppend (str "song_") (id) (str "main_menu") (by decide)),
      if_neg (neAppend (str "song_") (id) (str "help") (by decide)),
      if_neg (neAppend (str "song_") (id) (str "settings") (by decide)),
      if_neg (notPrefixOfAppend (str "quality_") (str "song_") (id) (by decide) (by decide)),
      if_neg (neAppend (str "song_") (id) (str "my_stats") (by decide)),
      if_neg (neAppend (str "song_") (id) (str "history") (by decide)),
      if_neg (neAppend (str "song_") (id) (str "clear_history") (by decide)),
      if_neg (neAppend (str "song_") (id) (str "search_songs") (by decide)),
      if_neg (neAppend (str "song_") (id) (str "search_albums") (by decide)),
      if_neg (neAppend (str "song_") (id) (str "search_playlists") (by decide)),
      if_neg (neAppend (str "song_") (id) (str "search_artists") (by decide)),
      if_pos (chPrefix_self_append (str "song_") id)]
  rw [show str "song_" ++ id = str "song" ++ '_' :: id from rfl,
      pySplitTail_eq (str "song") id (by decide)]


theorem decode_openAlbum (id : PyStr) :
    decode (str "album_" ++ id) = Except.ok (some (BotAction.openAlbum id)) := by
  unfold decode
  rw [if_neg (neAppend (str "album_") (id) (str "main_menu") (by decide)),
      if_neg (neAppend (str "album_") (id) (str "help") (by decide)),
      if_neg (neAppend (str "album_") (id) (str "settings") (by decide)),
      if_neg (notPrefixOfAppend (str "quality_") (str "album_") (id) (by decide) (by decide)),
      if_neg (neAppend (str "album_") (id) (str "my_stats") (by decide)),
      if_neg (neAppend (str "album_") (id) (str "history") (by decide)),
      if_neg (neAppend (str "album_") (id) (str "clear_history") (by decide)),
      if_neg (neAppend (str "album_") (id) (str "search_songs") (by decide)),
      if_neg (neAppend (str "album_") (id) (str "search_albums") (by decide)),
      if_neg (neAppend (str "album_") (id) (str "search_playlists") (by decide)),
      if_neg (neAppend (str "album_") (id) (str "search_artists") (by decide)),
      if_neg (notPrefixOfAppend (str "song_") (str "album_") (id) (by decide) (by decide)),
      if_pos (chPrefix_self_append (str "album_") id)]
  rw [show str "album_" ++ id = str "album" ++ '_' :: id from rfl,
      pySplitTail_eq (str "album") id (by decide)]


theorem decode_openPlaylist (id : PyStr) :
    decode (str "playlist_" ++ id) = Except.ok (some (BotAction.openPlaylist id)) := by
  unfold decode
  rw [if_neg (neAppend (str "playlist_") (id) (str "main_menu") (by decide)),
      if_neg (neAppend (str "playlist_") (id) (str "help") (by decide)),
      if_neg (neAppend (str "playlist_") (id) (str "settings") (by decide)),
      if_neg (notPrefixOfAppend (str "quality_") (str "playlist_") (id) (by decide) (by decide)),
      if_neg (neAppend (str "playlist_") (id) (str "my_stats") (by decide)),
      if_neg (neAppend (str "playlist_") (id) (str "history") (by decide)),
      if_neg (neAppend (str "playlist_") (id) (str "clear_history") (by decide)),
      if_neg (neAppend (str "playlist_") (id) (str "search_songs") (by decide)),
      if_neg (neAppend (str "playlist_") (id) (str "search_albums") (by decide)),
      if_neg (neAppend (str "playlist_") (id) (str "search_playlists") (by decide)),
      if_neg (neAppend (str "playlist_") (id) (str "search_artists") (by decide)),
      if_neg (notPrefixOfAppend (str "song_") (str "playlist_") (id) (by decide) (by decide)),
      if_neg (notPrefixOfAppend (str "album_") (str "playlist_") (id) (by decide) (by decide)),
      if_pos (chPrefix_self_append (str "playlist_") id)]
  rw [show str "playlist_" ++ id = str "playlist" ++ '_' :: id from rfl,
      pySplitTail_eq (str "playlist") id (by decide)]


theorem decode_downloadOne (id : PyStr) :
    decode (str "dl_" ++ id) = Except.ok (some (BotAction.downloadOne id)) := by
  unfold decode
  rw [if_neg (neAppend (str "dl_") (id) (str "main_menu") (by decide)),
      if_neg (neAppend (str "dl_") (id) (str "help") (by decide)),
      if_neg (neAppend (str "dl_") (id) (str "settings") (by decide)),
      if_neg (notPrefixOfAppend (str "quality_") (str "dl_") (id) (by decide) (by decide)),
      if_neg (neAppend (str "dl_") (id) (str "my_stats") (by decide)),
      if_neg (neAppend (str "dl_") (id) (str "history") (by decide)),
      if_neg (neAppend (str "dl_") (id) (str "clear_history") (by decide)),
      if_neg (neAppend (str "dl_") (id) (str "search_songs") (by decide)),
      if_neg (neAppend (str "dl_") (id) (str "search_albums") (by decide)),
      if_neg (neAppend (str "dl_") (id) (str "search_playlists") (by decide)),
      if_neg (neAppend (str "dl_") (id) (str "search_artists") (by decide)),
      if_neg (notPrefixOfAppend (str "song_") (str "dl_") (id) (by decide) (by decide)),
      if_neg (notPrefixOfAppend (str "album_") (str "dl_") (id) (by decide) (by decide)),
      if_neg (notPrefixOfAppend (str "playlist_") (str "dl_") (id) (by decide) (by decide)),
      if_neg (by rw [chPrefix_append_false (str "artist_") (str "dl_") (id) (by decide) (by decide)]; simp),
      if_neg (notPrefixOfAppend (str "artist_songs_") (str "dl_") (id) (by decide) (by decide)),
      if_neg (notPrefixOfAppend (str "artist_albums_") (str "dl_") (id) (by decide) (by decide)),
      if_pos (chPrefix_self_append (str "dl_") id)]
  rw [show str "dl_" ++ id = str "dl" ++ '_' :: id from rfl,
      pySplitTail_eq (str "dl") id (by decide)]


theorem decode_similar (id : PyStr) :
    decode (str "sim_" ++ id) = Except.ok (some (BotAction.similar id)) := by
  unfold decode
  rw [if_neg (neAppend (str "sim_") (id) (str "main_menu") (by decide)),
      if_neg (neAppend (str "sim_") (id) (str "help") (by decide)),
      if_neg (neAppend (str "sim_") (id) (str "settings") (by decide)),
      if_neg (notPrefixOfAppend (str "quality_") (str "sim_") (id) (by decide) (by decide)),
      if_neg (neAppend (str "sim_") (id) (str "my_stats") (by decide)),
      if_neg (neAppend (str "sim_") (id) (str "history") (by decide)),
      if_neg (neAppend (str "sim_") (id) (str "clear_history") (by decide)),
      if_neg (neAppend (str "sim_") (id) (str "search_songs") (by decide)),
      if_neg (neAppend (str "sim_") (id) (str "search_albums") (by decide)),
      if_neg (neAppend (str "sim_") (id) (str "search_playlists") (by decide)),
      if_neg (neAppend (str "sim_") (id) (str "search_artists") (by decide)),
      if_neg (notPrefixOfAppend (str "song_") (str "sim_") (id) (by decide) (by decide)),
      if_neg (notPrefixOfAppend (str "album_") (str "sim_") (id) (by decide) (by decide)),
      if_neg (notPrefixOfAppend (str "playlist_") (str "sim_") (id) (by decide) (by decide)),
      if_neg (by rw [chPrefix_append_false (str "artist_") (str "sim_") (id) (by decide) (by decide)]; simp),
      if_neg (notPrefixOfAppend (str "artist_songs_") (str "sim_") (id) (by decide) (by decide)),
      if_neg (notPrefixOfAppend (str "artist_albums_") (str "sim_") (id) (by decide) (by decide)),
      if_neg (notPrefixOfAppend (str "dl_") (str "sim_") (id) (by decide) (by decide)),
      if_neg (notPrefixOfAppend (str "dlall_") (str "sim_") (id) (by decide) (by decide)),
      if_pos (chPrefix_self_append (str "sim_") id)]
  rw [show str "sim_" ++ id = str "sim" ++ '_' :: id from rfl,
      pySplitTail_eq (str "sim") id (by decide)]


theorem decode_openArtist (id : PyStr) (h1 : chPrefix (str "songs") id = false)
    (h2 : chPrefix (str "albums") id = false) :
    decode (str "artist_" ++ id) = Except.ok (some (BotAction.openArtist id)) := by
  have hs : chPrefix (str "artist_songs") (str "artist_" ++ id) = false := by
    rw [show str "artist_songs" = str "artist_" ++ str "songs" from rfl, chPrefix_append_left]
    exact h1
  have ha : chPrefix (str "artist_albums") (str "artist_" ++ id) = false := by
    rw [show str "artist_albums" = str "artist_" ++ str "albums" from rfl, chPrefix_append_left]
    exact h2
  unfold decode
  rw [if_neg (neAppend (str "artist_") (id) (str "main_menu") (by decide)),
      if_neg (neAppend (str "artist_") (id) (str "help") (by decide)),
      if_neg (neAppend (str "artist_") (id) (str "settings") (by decide)),
      if_neg (notPrefixOfAppend (str "quality_") (str "artist_") (id) (by decide) (by decide)),
      if_neg (neAppend (str "artist_") (id) (str "my_stats") (by decide)),
      if_neg (neAppend (str "artist_") (id) (str "history") (by decide)),
      if_neg (neAppend (str "artist_") (id) (str "clear_history") (by decide)),
      if_neg (neAppend (str "artist_") (id) (str "search_songs") (by decide)),
      if_neg (neAppend (str "artist_") (id) (str "search_albums") (by decide)),
      if_neg (neAppend (str "artist_") (id) (str "search_playlists") (by decide)),
      if_neg (neAppend (str "artist_") (id) (str "search_artists") (by decide)),
      if_neg (notPrefixOfAppend (str "song_") (str "artist_") (id) (by decide) (by decide)),
      if_neg (notPrefixOfAppend (str "album_") (str "artist_") (id) (by decide) (by decide)),
      if_neg (notPrefixOfAppend (str "playlist_") (str "artist_") (id) (by decide) (by decide)),
      if_pos (by rw [chPrefix_self_append (str "artist_") id, hs, ha]; rfl)]
  rw [show str "artist_" ++ id = str "artist" ++ '_' :: id from rfl,
      pySplitTail_eq (str "artist") id (by decide)]


theorem decode_artistSongs (id : PyStr) (page : Int) (hid : '_' ∉ id) :
    decode (str "artist_songs_" ++ (id ++ '_' :: intChars page))
      = Except.ok (some (BotAction.artistSongs id page)) := by
  have h16 : chPrefix (str "artist_songs") (str "artist_songs_" ++ (id ++ '_' :: intChars page)) = true := by
    rw [show str "artist_songs_" ++ (id ++ '_' :: intChars page)
          = str "artist_songs" ++ ('_' :: (id ++ '_' :: intChars page)) from rfl]
    exact chPrefix_self_append _ _
  have hparts : chSplit '_' (str "artist_songs_" ++ (id ++ '_' :: intChars page))
      = [str "artist", str "songs", id, intChars page] := by
    rw [show str "artist_songs_" ++ (id ++ '_' :: intChars page)
          = str "artist" ++ '_' :: (str "songs" ++ '_' :: (id ++ '_' :: intChars page)) from rfl,
        chSplit_append '_' (str "artist") _ (by decide),
        chSplit_append '_' (str "songs") _ (by decide),
        chSplit_append '_' id _ hid,
        chSplit_sepFree '_' (intChars page) (underscore_not_mem_intChars page)]
  unfold decode
  rw [if_neg (neAppend (str "artist_songs_") (id ++ '_' :: intChars page) (str "main_menu") (by decide)),
      if_neg (neAppend (str "artist_songs_") (id ++ '_' :: intChars page) (str "help") (by decide)),
      if_neg (neAppend (str "artist_songs_") (id ++ '_' :: intChars page) (str "settings") (by decide)),
      if_neg (notPrefixOfAppend (str "quality_") (str "artist_songs_") (id ++ '_' :: intChars page) (by decide) (by decide)),
      if_neg (neAppend (str "artist_songs_") (id ++ '_' :: intChars page) (str "my_stats") (by decide)),
      if_neg (neAppend (str "artist_songs_") (id ++ '_' :: intChars page) (str "history") (by decide)),
      if_neg (neAppend (str "artist_songs_") (id ++ '_' :: intChars page) (str "clear_history") (by decide)),
      if_neg (neAppend (str "artist_songs_") (id ++ '_' :: intChars page) (str "search_songs") (by decide)),
      if_neg (neAppend (str "artist_songs_") (id ++ '_' :: intChars page) (str "search_albums") (by decide)),
      if_neg (neAppend (str "artist_songs_") (id ++ '_' :: intChars page) (str "search_playlists") (by decide)),
      if_neg (neAppend (str "artist_songs_") (id ++ '_' :: intChars page) (str "search_artists") (by decide)),
      if_neg (notPrefixOfAppend (str "song_") (str "artist_songs_") (id ++ '_' :: intChars page) (by decide) (by decide)),
      if_neg (notPrefixOfAppend (str "album_") (str "artist_songs_") (id ++ '_' :: intChars page) (by decide) (by decide)),
      if_neg (notPrefixOfAppend (str "playlist_") (str "artist_songs_") (id ++ '_' :: intChars page) (by decide) (by decide)),
      if_neg (by rw [h16]; simp),
      if_pos (chPrefix_self_append (str "artist_songs_") (id ++ '_' :: intChars page))]
  rw [hparts]
  rw [if_pos (by simp)]
  rw [show List.getD [str "artist", str "songs", id, intChars page] 3 [] = intChars page from rfl,
      pyIntCh_intChars page]
  rfl


theorem decode_artistAlbums (id : PyStr) (page : Int) (hid : '_' ∉ id) :
    decode (str "artist_albums_" ++ (id ++ '_' :: intChars page))
      = Except.ok (some (BotAction.artistAlbums id page)) := by
  have h17 : chPrefix (str "artist_albums") (str "artist_albums_" ++ (id ++ '_' :: intChars page)) = true := by
    rw [show str "artist_albums_" ++ (id ++ '_' :: intChars page)
          = str "artist_albums" ++ ('_' :: (id ++ '_' :: intChars page)) from rfl]
    exact chPrefix_self_append _ _
  have h16 : chPrefix (str "artist_songs_") (str "artist_albums_" ++ (id ++ '_' :: intChars page)) = false := by
    rw [show str "artist_songs_" = str "artist_" ++ str "songs_" from rfl,
        show str "artist_albums_" ++ (id ++ '_' :: intChars page)
          = str "artist_" ++ (str "albums_" ++ (id ++ '_' :: intChars page)) from rfl,
        chPrefix_append_left]
    exact chPrefix_append_false (str "songs_") (str "albums_") _ (by decide) (by decide)
  have hparts : chSplit '_' (str "artist_albums_" ++ (id ++ '_' :: intChars page))
      = [str "artist", str "albums", id, intChars page] := by
    rw [show str "artist_albums_" ++ (id ++ '_' :: intChars page)
          = str "artist" ++ '_' :: (str "albums" ++ '_' :: (id ++ '_' :: intChars page)) from rfl,
        chSplit_append '_' (str "artist") _ (by decide),
        chSplit_append '_' (str "albums") _ (by decide),
        chSplit_append '_' id _ hid,
        chSplit_sepFree '_' (intChars page) (underscore_not_mem_intChars page)]
  unfold decode
  rw [if_neg (neAppend (str "artist_albums_") (id ++ '_' :: intChars page) (str "main_menu") (by decide)),
      if_neg (neAppend (str "artist_albums_") (id ++ '_' :: intChars page) (str "help") (by decide)),
      if_neg (neAppend (str "artist_albums_") (id ++ '_' :: intChars page) (str "settings") (by decide)),
      if_neg (notPrefixOfAppend (str "quality_") (str "artist_albums_") (id ++ '_' :: intChars page) (by decide) (by decide)),
      if_neg (neAppend (str "artist_albums_") (id ++ '_' :: intChars page) (str "my_stats") (by decide)),
      if_neg (neAppend (str "artist_albums_") (id ++ '_' :: intChars page) (str "history") (by decide)),
      if_neg (neAppend (str "artist_albums_") (id ++ '_' :: intChars page) (str "clear_history") (by decide)),
      if_neg (neAppend (str "artist_albums_") (id ++ '_' :: intChars page) (str "search_songs") (by decide)),
      if_neg (neAppend (str "artist_albums_") (id ++ '_' :: intChars page) (str "search_albums") (by decide)),
      if_neg (neAppend (str "artist_albums_") (id ++ '_' :: intChars page) (str "search_playlists") (by decide)),
      if_neg (neAppend (str "artist_albums_") (id ++ '_' :: intChars page) (str "search_artists") (by decide)),
      if_neg (notPrefixOfAppend (str "song_") (str "artist_albums_") (id ++ '_' :: intChars page) (by decide) (by decide)),
      if_neg (notPrefixOfAppend (str "album_") (str "artist_albums_") (id ++ '_' :: intChars page) (by decide) (by decide)),
      if_neg (notPrefixOfAppend (str "playlist_") (str "artist_albums_") (id ++ '_' :: intChars page) (by decide) (by decide)),
      if_neg (by rw [h17]; simp),
      if_neg (by rw [h16]; simp),
      if_pos (chPrefix_self_append (str "artist_albums_") (id ++ '_' :: intChars page))]
  rw [hparts]
  rw [if_pos (by simp)]
  rw [show List.getD [str "artist", str "albums", id, intChars page] 3 [] = intChars page from rfl,
      pyIntCh_intChars page]
  rfl


theorem decode_downloadAll (t id : PyStr) (ht : '_' ∉ t) (hid : '_' ∉ id) :
    decode (str "dlall_" ++ (t ++ '_' :: id))
      = Except.ok (some (BotAction.downloadAll t id)) := by
  have hparts : chSplit '_' (str "dlall_" ++ (t ++ '_' :: id)) = [str "dlall", t, id] := by
    rw [show str "dlall_" ++ (t ++ '_' :: id) = str "dlall" ++ '_' :: (t ++ '_' :: id) from rfl,
        chSplit_append '_' (str "dlall") _ (by decide),
        chSplit_append '_' t _ ht,
        chSplit_sepFree '_' id hid]
  unfold decode
  rw [if_neg (neAppend (str "dlall_") (t ++ '_' :: id) (str "main_menu") (by decide)),
      if_neg (neAppend (str "dlall_") (t ++ '_' :: id) (str "help") (by decide)),
      if_neg (neAppend (str "dlall_") (t ++ '_' :: id) (str "settings") (by decide)),
      if_neg (notPrefixOfAppend (str "quality_") (str "dlall_") (t ++ '_' :: id) (by decide) (by decide)),
      if_neg (neAppend (str "dlall_") (t ++ '_' :: id) (str "my_stats") (by decide)),
      if_neg (neAppend (str "dlall_") (t ++ '_' :: id) (str "history") (by decide)),
      if_neg (neAppend (str "dlall_") (t ++ '_' :: id) (str "clear_history") (by decide)),
      if_neg (neAppend (str "dlall_") (t ++ '_' :: id) (str "search_songs") (by decide)),
      if_neg (neAppend (str "dlall_") (t ++ '_' :: id) (str "search_albums") (by decide)),
      if_neg (neAppend (str "dlall_") (t ++ '_' :: id) (str "search_playlists") (by decide)),
      if_neg (neAppend (str "dlall_") (t ++ '_' :: id) (str "search_artists") (by decide)),
      if_neg (notPrefixOfAppend (str "song_") (str "dlall_") (t ++ '_' :: id) (by decide) (by decide)),
      if_neg (notPrefixOfAppend (str "album_") (str "dlall_") (t ++ '_' :: id) (by decide) (by decide)),
      if_neg (notPrefixOfAppend (str "playlist_") (str "dlall_") (t ++ '_' :: id) (by decide) (by decide)),
      if_neg (by rw [chPrefix_append_false (str "artist_") (str "dlall_") (t ++ '_' :: id) (by decide) (by decide)]; simp),
      if_neg (notPrefixOfAppend (str "artist_songs_") (str "dlall_") (t ++ '_' :: id) (by decide) (by decide)),
      if_neg (notPrefixOfAppend (str "artist_albums_") (str "dlall_") (t ++ '_' :: id) (by decide) (by decide)),
      if_neg (notPrefixOfAppend (str "dl_") (str "dlall_") (t ++ '_' :: id) (by decide) (by decide)),
      if_pos (chPrefix_self_append (str "dlall_") (t ++ '_' :: id))]
  rw [hparts]
  rfl


theorem decode_paginateList (t : PyStr) (page : Int) (q : PyStr) (ht : '_' ∉ t) :
    decode (str "list_" ++ (t ++ '_' :: (intChars page ++ '_' :: q)))
      = Except.ok (some (BotAction.paginateList t page q)) := by
  have hparts : chSplit '_' (str "list_" ++ (t ++ '_' :: (intChars page ++ '_' :: q)))
      = str "list" :: t :: intChars page :: chSplit '_' q := by
    rw [show str "list_" ++ (t ++ '_' :: (intChars page ++ '_' :: q))
          = str "list" ++ '_' :: (t ++ '_' :: (intChars page ++ '_' :: q)) from rfl,
        chSplit_append '_' (str "list") _ (by decide),
        chSplit_append '_' t _ ht,
        chSplit_append '_' (intChars page) _ (underscore_not_mem_intChars page)]
  unfold decode
  rw [if_neg (neAppend (str "list_") (t ++ '_' :: (intChars page ++ '_' :: q)) (str "main_menu") (by decide)),
      if_neg (neAppend (str "list_") (t ++ '_' :: (intChars page ++ '_' :: q)) (str "help") (by decide)),
      if_neg (neAppend (str "list_") (t ++ '_' :: (intChars page ++ '_' :: q)) (str "settings") (by decide)),
      if_neg (notPrefixOfAppend (str "quality_") (str "list_") (t ++ '_' :: (intChars page ++ '_' :: q)) (by decide) (by decide)),
      if_neg (neAppend (str "list_") (t ++ '_' :: (intChars page ++ '_' :: q)) (str "my_stats") (by decide)),
      if_neg (neAppend (str "list_") (t ++ '_' :: (intChars page ++ '_' :: q)) (str "history") (by decide)),
      if_neg (neAppend (str "list_") (t ++ '_' :: (intChars page ++ '_' :: q)) (str "clear_history") (by decide)),
      if_neg (neAppend (str "list_") (t ++ '_' :: (intChars page ++ '_' :: q)) (str "search_songs") (by decide)),
      if_neg (neAppend (str "list_") (t ++ '_' :: (intChars page ++ '_' :: q)) (str "search_albums") (by decide)),
      if_neg (neAppend (str "list_") (t ++ '_' :: (intChars page ++ '_' :: q)) (str "search_playlists") (by decide)),
      if_neg (neAppend (str "list_") (t ++ '_' :: (intChars page ++ '_' :: q)) (str "search_artists") (by decide)),
      if_neg (notPrefixOfAppend (str "song_") (str "list_") (t ++ '_' :: (intChars page ++ '_' :: q)) (by decide) (by decide)),
      if_neg (notPrefixOfAppend (str "album_") (str "list_") (t ++ '_' :: (intChars page ++ '_' :: q)) (by decide) (by decide)),
      if_neg (notPrefixOfAppend (str "playlist_") (str "list_") (t ++ '_' :: (intChars page ++ '_' :: q)) (by decide) (by decide)),
      if_neg (by rw [chPrefix_append_false (str "artist_") (str "list_") (t ++ '_' :: (intChars page ++ '_' :: q)) (by decide) (by decide)]; simp),
      if_neg (notPrefixOfAppend (str "artist_songs_") (str "list_") (t ++ '_' :: (intChars page ++ '_' :: q)) (by decide) (by decide)),
      if_neg (notPrefixOfAppend (str "artist_albums_") (str "list_") (t ++ '_' :: (intChars page ++ '_' :: q)) (by decide) (by decide)),
      if_neg (notPrefixOfAppend (str "dl_") (str "list_") (t ++ '_' :: (intChars page ++ '_' :: q)) (by decide) (by decide)),
      if_neg (notPrefixOfAppend (str "dlall_") (str "list_") (t ++ '_' :: (intChars page ++ '_' :: q)) (by decide) (by decide)),
      if_neg (notPrefixOfAppend (str "sim_") (str "list_") (t ++ '_' :: (intChars page ++ '_' :: q)) (by decide) (by decide)),
      if_pos (chPrefix_self_append (str "list_") (t ++ '_' :: (intChars page ++ '_' :: q)))]
  simp only [hparts, List.get?_cons_succ, List.get?_cons_zero, List.getD_cons_succ,
    List.getD_cons_zero, List.drop_succ_cons, List.drop_zero, pyIntCh_intChars, chJoin_chSplit]


theorem decode_albumdetail (id : PyStr) (page : Int) (hid : '_' ∉ id) :
    decode (str "albumdetail_" ++ (id ++ '_' :: intChars page))
      = Except.ok (some (BotAction.paginateDetail (str "album") id page)) := by
  have hpre : chPrefix (str "albumdetail_") (str "albumdetail_" ++ (id ++ '_' :: intChars page)) = true :=
    chPrefix_self_append _ _
  have hkind : chPrefix (str "albumdetail") (str "albumdetail_" ++ (id ++ '_' :: intChars page)) = true := by
    rw [show str "albumdetail_" ++ (id ++ '_' :: intChars page)
          = str "albumdetail" ++ ('_' :: (id ++ '_' :: intChars page)) from rfl]
    exact chPrefix_self_append _ _
  have hparts : chSplit '_' (str "albumdetail_" ++ (id ++ '_' :: intChars page))
      = [str "albumdetail", id, intChars page] := by
    rw [show str "albumdetail_" ++ (id ++ '_' :: intChars page)
          = str "albumdetail" ++ '_' :: (id ++ '_' :: intChars page) from rfl,
        chSplit_append '_' (str "albumdetail") _ (by decide),
        chSplit_append '_' id _ hid,
        chSplit_sepFree '_' (intChars page) (underscore_not_mem_intChars page)]
  unfold decode
  rw [if_neg (neAppend (str "albumdetail_") (id ++ '_' :: intChars page) (str "main_menu") (by decide)),
      if_neg (neAppend (str "albumdetail_") (id ++ '_' :: intChars page) (str "help") (by decide)),
      if_neg (neAppend (str "albumdetail_") (id ++ '_' :: intChars page) (str "settings") (by decide)),
      if_neg (notPrefixOfAppend (str "quality_") (str "albumdetail_") (id ++ '_' :: intChars page) (by decide) (by decide)),
      if_neg (neAppend (str "albumdetail_") (id ++ '_' :: intChars page) (str "my_stats") (by decide)),
      if_neg (neAppend (str "albumdetail_") (id ++ '_' :: intChars page) (str "history") (by decide)),
      if_neg (neAppend (str "albumdetail_") (id ++ '_' :: intChars page) (str "clear_history") (by decide)),
      if_neg (neAppend (str "albumdetail_") (id ++ '_' :: intChars page) (str "search_songs") (by decide)),
      if_neg (neAppend (str "albumdetail_") (id ++ '_' :: intChars page) (str "search_albums") (by decide)),
      if_neg (neAppend (str "albumdetail_") (id ++ '_' :: intChars page) (str "search_playlists") (by decide)),
      if_neg (neAppend (str "albumdetail_") (id ++ '_' :: intChars page) (str "search_artists") (by decide)),
      if_neg (notPrefixOfAppend (str "song_") (str "albumdetail_") (id ++ '_' :: intChars page) (by decide) (by decide)),
      if_neg (notPrefixOfAppend (str "album_") (str "albumdetail_") (id ++ '_' :: intChars page) (by decide) (by decide)),
      if_neg (notPrefixOfAppend (str "playlist_") (str "albumdetail_") (id ++ '_' :: intChars page) (by decide) (by decide)),
      if_neg (by rw [chPrefix_append_false (str "artist_") (str "albumdetail_") (id ++ '_' :: intChars page) (by decide) (by decide)]; simp),
      if_neg (notPrefixOfAppend (str "artist_songs_") (str "albumdetail_") (id ++ '_' :: intChars page) (by decide) (by decide)),
      if_neg (notPrefixOfAppend (str "artist_albums_") (str "albumdetail_") (id ++ '_' :: intChars page) (by decide) (by decide)),
      if_neg (notPrefixOfAppend (str "dl_") (str "albumdetail_") (id ++ '_' :: intChars page) (by decide) (by decide)),
      if_neg (notPrefixOfAppend (str "dlall_") (str "albumdetail_") (id ++ '_' :: intChars page) (by decide) (by decide)),
      if_neg (notPrefixOfAppend (str "sim_") (str "albumdetail_") (id ++ '_' :: intChars page) (by decide) (by decide)),
      if_neg (notPrefixOfAppend (str "list_") (str "albumdetail_") (id ++ '_' :: intChars page) (by decide) (by decide)),
      if_pos (by rw [hpre]; simp)]
  rw [hparts]
  rw [if_pos (by simp)]
  rw [show List.getD [str "albumdetail", id, intChars page] 2 [] = intChars page from rfl,
      pyIntCh_intChars page, if_pos hkind]
  rfl


theorem decode_playlistdetail (id : PyStr) (page : Int) (hid : '_' ∉ id) :
    decode (str "playlistdetail_" ++ (id ++ '_' :: intChars page))
      = Except.ok (some (BotAction.paginateDetail (str "playlist") id page)) := by
  have hpre : chPrefix (str "playlistdetail_") (str "playlistdetail_" ++ (id ++ '_' :: intChars page)) = true :=
    chPrefix_self_append _ _
  have hkind : ¬ (chPrefix (str "albumdetail") (str "playlistdetail_" ++ (id ++ '_' :: intChars page)) = true) := by
    rw [chPrefix_append_false (str "albumdetail") (str "playlistdetail_") _ (by decide) (by decide)]
    exact Bool.noConfusion
  have hparts : chSplit '_' (str "playlistdetail_" ++ (id ++ '_' :: intChars page))
      = [str "playlistdetail", id, intChars page] := by
    rw [show str "playlistdetail_" ++ (id ++ '_' :: intChars page)
          = str "playlistdetail" ++ '_' :: (id ++ '_' :: intChars page) from rfl,
        chSplit_append '_' (str "playlistdetail") _ (by decide),
        chSplit_append '_' id _ hid,
        chSplit_sepFree '_' (intChars page) (underscore_not_mem_intChars page)]
  unfold decode
  rw [if_neg (neAppend (str "playlistdetail_") (id ++ '_' :: intChars page) (str "main_menu") (by decide)),
      if_neg (neAppend (str "playlistdetail_") (id ++ '_' :: intChars page) (str "help") (by decide)),
      if_neg (neAppend (str "playlistdetail_") (id ++ '_' :: intChars page) (str "settings") (by decide)),
      if_neg (notPrefixOfAppend (str "quality_") (str "playlistdetail_") (id ++ '_' :: intChars page) (by decide) (by decide)),
      if_neg (neAppend (str "playlistdetail_") (id ++ '_' :: intChars page) (str "my_stats") (by decide)),
      if_neg (neAppend (str "playlistdetail_") (id ++ '_' :: intChars page) (str "history") (by decide)),
      if_neg (neAppend (str "playlistdetail_") (id ++ '_' :: intChars page) (str "clear_history") (by decide)),
      if_neg (neAppend (str "playlistdetail_") (id ++ '_' :: intChars page) (str "search_songs") (by decide)),
      if_neg (neAppend (str "playlistdetail_") (id ++ '_' :: intChars page) (str "search_albums") (by decide)),
      if_neg (neAppend (str "playlistdetail_") (id ++ '_' :: intChars page) (str "search_playlists") (by decide)),
      if_neg (neAppend (str "playlistdetail_") (id ++ '_' :: intChars page) (str "search_artists") (by decide)),
      if_neg (notPrefixOfAppend (str "song_") (str "playlistdetail_") (id ++ '_' :: intChars page) (by decide) (by decide)),
      if_neg (notPrefixOfAppend (str "album_") (str "playlistdetail_") (id ++ '_' :: intChars page) (by decide) (by decide)),
      if_neg (notPrefixOfAppend (str "playlist_") (str "playlistdetail_") (id ++ '_' :: intChars page) (by decide) (by decide)),
      if_neg (by rw [chPrefix_append_false (str "artist_") (str "playlistdetail_") (id ++ '_' :: intChars page) (by decide) (by decide)]; simp),
      if_neg (notPrefixOfAppend (str "artist_songs_") (str "playlistdetail_") (id ++ '_' :: intChars page) (by decide) (by decide)),
      if_neg (notPrefixOfAppend (str "artist_albums_") (str "playlistdetail_") (id ++ '_' :: intChars page) (by decide) (by decide)),
      if_neg (notPrefixOfAppend (str "dl_") (str "playlistdetail_") (id ++ '_' :: intChars page) (by decide) (by decide)),
      if_neg (notPrefixOfAppend (str "dlall_") (str "playlistdetail_") (id ++ '_' :: intChars page) (by decide) (by decide)),
      if_neg (notPrefixOfAppend (str "sim_") (str "playlistdetail_") (id ++ '_' :: intChars page) (by decide) (by decide)),
      if_neg (notPrefixOfAppend (str "list_") (str "playlistdetail_") (id ++ '_' :: intChars page) (by decide) (by decide)),
      if_pos (by rw [hpre]; simp)]
  rw [hparts]
  rw [if_pos (by simp)]
  rw [show List.getD [str "playlistdetail", id, intChars page] 2 [] = intChars page from rfl,
      pyIntCh_intChars page, if_neg hkind]
  rfl



/-- The precondition under which the round-trip law can hold, namely
the claim's own proviso (catalog ids, kinds and quality choices are
separator-free / drawn from the fixed sets the keyboards emit) plus the
extra proviso the counterexample forces on artist ids. -/
def ValidAction : BotAction → Prop
  | BotAction.searchMenu kind =>
      kind = str "songs" ∨ kind = str "albums" ∨ kind = str "playlists" ∨ kind = str "artists"
  | BotAction.setQuality choice => '_' ∉ choice
  | BotAction.openSong id => '_' ∉ id
  | BotAction.openAlbum id => '_' ∉ id
  | BotAction.openPlaylist id => '_' ∉ id
  | BotAction.openArtist id =>
      '_' ∉ id ∧ chPrefix (str "songs") id = false ∧ chPrefix (str "albums") id = false
  | BotAction.artistSongs id _ => '_' ∉ id
  | BotAction.artistAlbums id _ => '_' ∉ id
  | BotAction.downloadOne id => '_' ∉ id
  | BotAction.downloadAll t id => (t = str "album" ∨ t = str "playlist") ∧ '_' ∉ id
  | BotAction.similar id => '_' ∉ id
  | BotAction.paginateList t _ _ =>
      t = str "song" ∨ t = str "album" ∨ t = str "playlist" ∨ t = str "artist"
  | BotAction.paginateDetail t id _ => (t = str "album" ∨ t = str "playlist") ∧ '_' ∉ id
  | _ => True

/-- Claim C8, counterexample: the artist-open action for the
separator-free catalog id `songs` encodes to `artist_songs`, which the
decoder's own `artist_songs`/`artist_albums` exclusion guards capture,
so the token falls through every branch and decodes to nothing instead
of the original action. -/
theorem c8_counterexample :
    ('_' ∉ str "songs")
    ∧ decode (encode (BotAction.openArtist (str "songs"))) = Except.ok none
    ∧ decode (encode (BotAction.openArtist (str "songs")))
        ≠ Except.ok (some (BotAction.openArtist (str "songs"))) := by
  decide

/-- Claim C8 (amended): decode(encode(a)) = a for every representable
action whose ids contain no separator, with the additional proviso that
an artist-open id does not itself begin with `songs` or `albums` (such
ids make the encoded token collide with the artist-songs/artist-albums
guards and be dropped). -/
theorem c8_amended_roundtrip (a : BotAction) (h : ValidAction a) :
    decode (encode a) = Except.ok (some a) := by
  cases a with
  | mainMenu => decide
  | helpMenu => decide
  | settingsMenu => decide
  | myStats => decide
  | historyMenu => decide
  | clearHistoryA => decide
  | searchMenu kind =>
    unfold ValidAction at h
    rcases h with h | h | h | h <;> subst h <;> decide
  | setQuality choice => exact decode_setQuality choice h
  | openSong id => exact decode_openSong id
  | openAlbum id => exact decode_openAlbum id
  | openPlaylist id => exact decode_openPlaylist id
  | openArtist id =>
    unfold ValidAction at h
    exact decode_openArtist id h.2.1 h.2.2
  | artistSongs id page => exact decode_artistSongs id page h
  | artistAlbums id page => exact decode_artistAlbums id page h
  | downloadOne id => exact decode_downloadOne id
  | similar id => exact decode_similar id
  | downloadAll t id =>
    unfold ValidAction at h
    rcases h with ⟨ht | ht, hid⟩ <;> subst ht
    · exact decode_downloadAll (str "album") id (by decide) hid
    · exact decode_downloadAll (str "playlist") id (by decide) hid
  | paginateList t page q =>
    unfold ValidAction at h
    rcases h with ht | ht | ht | ht <;> subst ht
    · exact decode_paginateList (str "song") page q (by decide)
    · exact decode_paginateList (str "album") page q (by decide)
    · exact decode_paginateList (str "playlist") page q (by decide)
    · exact decode_paginateList (str "artist") page q (by decide)
  | paginateDetail t id page =>
    unfold ValidAction at h
    rcases h with ⟨ht | ht, hid⟩ <;> subst ht
    · exact decode_albumdetail id page hid
    · exact decode_playlistdetail id page hid
  | adminPanel => decide
  | adminBroadcast => decide
  | adminStats => decide
  | backSearch => decide
  | noop => decide

theorem c8_witness :
    decode (encode (BotAction.openSong (str "abc123")))
      = Except.ok (some (BotAction.openSong (str "abc123"))) :=
  c8_amended_roundtrip (BotAction.openSong (str "abc123"))
    (show ('_' : Char) ∉ str "abc123" by decide)

/-- Claim C7, counterexample: the unknown-prefix token `zzz` is
malformed, yet decoding does not fail with a recoverable error rendered
as an error view — the token matches no branch and the turn is silently
acknowledged with no error output at all. -/
theorem c7_counterexample :
    decode (str "zzz") = Except.ok none
    ∧ handle_token (str "zzz") = ParseOutcome.silentAck
    ∧ ParseOutcome.silentAck ≠ ParseOutcome.errorAlert := by
  decide

/-- Claim C7 (amended): a missing required field (`IndexError`) or a
page field that does not parse as an integer (`ValueError`) raises an
exception that the handler's catch-all turns into the generic error
alert, and no fault escapes the handler; but unknown-prefix tokens are
silently ignored rather than rejected, and a page field that parses as
a negative integer is accepted. -/
theorem c7_amended_malformed_tokens :
    (∀ (data : PyStr) (e : PyErr), decode data = Except.error e →
        handle_token data = ParseOutcome.errorAlert)
    ∧ decode (str "dlall_album") = Except.error PyErr.indexError
    ∧ handle_token (str "dlall_album") = ParseOutcome.errorAlert
    ∧ decode (str "list_song_x_q") = Except.error PyErr.valueError
    ∧ decode (str "zzz") = Except.ok none
    ∧ handle_token (str "zzz") = ParseOutcome.silentAck
    ∧ decode (str "list_song_-1_q")
        = Except.ok (some (BotAction.paginateList (str "song") (-1) (str "q"))) := by
  refine ⟨?_, by decide, by decide, by decide, by decide, by decide, by decide⟩
  intro data e h
  unfold handle_token
  rw [h]

theorem c7_witness :
    handle_token (str "list_song_x_q") = ParseOutcome.errorAlert :=
  c7_amended_malformed_tokens.1 (str "list_song_x_q") PyErr.valueError (by decide)

/- ## Claim C9: thumbnail handling in `download_song` -/

/-- A song whose audio URL resolves and which lists one thumbnail. -/
def c9song : Song :=
  { id := str "s1", name := str "SongOne",
    downloadUrl := [Variant.mk (some (str "audioU"))],
    image := [Variant.mk (some (str "thumbU"))],
    duration := 180 }

/-- Details oracle returning that song. -/
def c9detail : PyStr → Option Song := fun _ => some c9song

/-- Binary oracle: the audio GET succeeds, the thumbnail GET raises a
transport exception. -/
def c9httpRaise : PyStr → FetchStatus :=
  fun u => if u = str "thumbU" then FetchStatus.raised else FetchStatus.ok

/-- Binary oracle: the audio GET succeeds, the thumbnail GET completes
with a non-200 status. -/
def c9httpNotOk : PyStr → FetchStatus :=
  fun u => if u = str "thumbU" then FetchStatus.notOk else FetchStatus.ok

/-- Claim C9, counterexample: the thumbnail GET sits inside the same
`try` as the audio send and runs before `send_audio`, so a thumbnail
fetch that raises a transport exception aborts the item — the audio,
although already fetched with status 200, is never sent. -/
theorem c9_counterexample :
    download_song 3 c9detail c9httpRaise (str "s1") = DlResult.exceptionCaught
    ∧ DlResult.exceptionCaught ≠ DlResult.sentAudio true
    ∧ DlResult.exceptionCaught ≠ DlResult.sentAudio false
    ∧ c9httpRaise (str "audioU") = FetchStatus.ok := by
  decide

/-- Claim C9 (amended): a thumbnail fetch that completes with a non-200
status is non-fatal — the audio is still sent, merely without the
thumbnail in its metadata (likewise when no thumbnail is listed); but a
thumbnail fetch that raises a transport exception aborts the item and
the audio is not sent. -/
theorem c9_amended_thumbnail :
    (∀ (quality_index : Nat) (detail : PyStr → Option Song) (http : PyStr → FetchStatus)
        (song_id : PyStr) (song : Song) (url turl : PyStr),
      detail song_id = some song →
      pickDownloadUrl quality_index song.downloadUrl = some url → url ≠ [] →
      http url = FetchStatus.ok →
      thumbnail_url song = some turl → turl ≠ [] →
      http turl = FetchStatus.notOk →
      download_song quality_index detail http song_id = DlResult.sentAudio false)
    ∧ (∀ (quality_index : Nat) (detail : PyStr → Option Song) (http : PyStr → FetchStatus)
        (song_id : PyStr) (song : Song) (url turl : PyStr),
      detail song_id = some song →
      pickDownloadUrl quality_index song.downloadUrl = some url → url ≠ [] →
      http url = FetchStatus.ok →
      thumbnail_url song = some turl → turl ≠ [] →
      http turl = FetchStatus.raised →
      download_song quality_index detail http song_id = DlResult.exceptionCaught) := by
  constructor
  · intro qi detail http song_id song url turl hdet hpick hurl haud hthumb hturl htraise
    simp [download_song, hdet, hpick, hurl, haud, hthumb, hturl, htraise]
  · intro qi detail http song_id song url turl hdet hpick hurl haud hthumb hturl htraise
    simp [download_song, hdet, hpick, hurl, haud, hthumb, hturl, htraise]

theorem c9_witness :
    download_song 3 c9detail c9httpNotOk (str "s1") = DlResult.sentAudio false :=
  c9_amended_thumbnail.1 3 c9detail c9httpNotOk (str "s1") c9song
    (str "audioU") (str "thumbU") rfl (by decide) (by decide) (by decide)
    (by decide) (by decide) (by decide)
